import Mathlib

/-! The router operator of grs/qdo: its reconciliation core.

A shallow embedding of `pkg/apis/grs/v1alpha1/types.go` and `pkg/stub/handler.go`.

Conventions of the embedding.

* Go structs become Lean structures with the same field names.
* `int32` fields are `Int`; the code performs no arithmetic on them, it only compares
  them with each other and with `0` and prints them in decimal.
* The sequences of `RouterSpec` are `List`s.  The code only takes their `len`, ranges
  over them and appends to them, and all three treat a nil slice like an empty one.
* Slices of the Kubernetes objects that are compared with `reflect.DeepEqual` are
  `Option (List _)`, with `none` for the nil slice, because `reflect.DeepEqual`
  tells a nil slice from an empty one.
* A pointer is an `Option`, with `none` for nil.
* A function that mutates its receiver returns the mutated value.
-/

set_option linter.dupNamespace false

namespace Qdo

/-! ## `pkg/apis/grs/v1alpha1/types.go` -/

structure Address where
  Prefix : String := ""
  Pattern : String := ""
  Distribution : String := ""
  Waypoint : Bool := false
  IngressPhase : Option Int := none
  EgressPhase : Option Int := none
  deriving DecidableEq, Repr

structure LinkRoute where
  Prefix : String := ""
  Pattern : String := ""
  Direction : String := ""
  ContainerId : String := ""
  Connection : String := ""
  AddExternalPrefix : String := ""
  RemoveExternalPrefix : String := ""
  deriving DecidableEq, Repr

structure AutoLink where
  Address : String := ""
  Direction : String := ""
  ContainerId : String := ""
  Connection : String := ""
  ExternalPrefix : String := ""
  Phase : Option Int := none
  deriving DecidableEq, Repr

structure Connector where
  Name : String := ""
  Host : String := ""
  Port : Int := 0
  RouteContainer : Bool := false
  Cost : Int := 0
  SslProfile : String := ""
  deriving DecidableEq, Repr

structure Listener where
  Name : String := ""
  Host : String := ""
  Port : Int := 0
  RouteContainer : Bool := false
  Http : Bool := false
  Cost : Int := 0
  SslProfile : String := ""
  deriving DecidableEq, Repr

structure SslProfile where
  Name : String := ""
  Credentials : String := ""
  CaCert : String := ""
  RequireClientCerts : Bool := false
  Ciphers : String := ""
  Protocols : String := ""
  deriving DecidableEq, Repr

/-- The field `AutoLinks` is declared with element type `Address` in the source. -/
structure RouterSpec where
  Size : Int := 0
  Console : Bool := false
  Addresses : List Address := []
  AutoLinks : List Address := []
  LinkRoutes : List LinkRoute := []
  Connectors : List Connector := []
  InterRouterConnectors : List Connector := []
  Listeners : List Listener := []
  InterRouterListeners : List Listener := []
  SslProfiles : List SslProfile := []
  deriving DecidableEq, Repr

structure RouterStatus where
  Nodes : Option (List String) := none
  deriving DecidableEq, Repr

/-! ## The Kubernetes API types the handler builds and compares

Only the fields that `handler.go` reads or writes are kept. -/

/-- A Go `map[string]string`: `none` is the nil map, `some es` holds the entries, the first
entry for a key being its binding. -/
abbrev GoMap := Option (List (String × String))

/-- The expression `m[k]`: the zero value `""` when `k` is absent or `m` is nil. -/
def GoMap.get (m : GoMap) (k : String) : String :=
  match m with
  | none => ""
  | some es => (es.lookup k).getD ""

/-- The presence test `_, ok := m[k]`. -/
def GoMap.has (m : GoMap) (k : String) : Bool :=
  match m with
  | none => false
  | some es => (es.lookup k).isSome

/-- The statement `m[k] = v`: it faults (`none`) on the nil map. -/
def GoMap.set (m : GoMap) (k v : String) : Option GoMap :=
  match m with
  | none => none
  | some es => some (some ((k, v) :: es.filter (fun e => e.1 != k)))

/-- The comparison `reflect.DeepEqual` on two maps: both nil or both non-nil, the same
keys, and equal values under every key. -/
def GoMap.deepEqual (a b : GoMap) : Bool :=
  match a, b with
  | none, none => true
  | some ea, some eb =>
      (ea.all fun e => ((eb.lookup e.1) == (ea.lookup e.1))) &&
      (eb.all fun e => ((ea.lookup e.1) == (eb.lookup e.1)))
  | _, _ => false

/-- The built-in `append(s, xs...)` on a slice that may be nil. -/
def goAppend {α : Type} (s : Option (List α)) (xs : List α) : Option (List α) :=
  match s, xs with
  | none, [] => none
  | none, x :: rest => some (x :: rest)
  | some l, xs => some (l ++ xs)

/-- The built-in `len` on a slice that may be nil. -/
def goLen {α : Type} (s : Option (List α)) : Nat :=
  match s with
  | none => 0
  | some l => l.length

structure TypeMeta where
  APIVersion : String := ""
  Kind : String := ""
  deriving DecidableEq, Repr

structure OwnerReference where
  APIVersion : String := ""
  Kind : String := ""
  Name : String := ""
  UID : String := ""
  Controller : Option Bool := none
  deriving DecidableEq, Repr

structure ObjectMeta where
  Name : String := ""
  Namespace : String := ""
  UID : String := ""
  Labels : GoMap := none
  Annotations : GoMap := none
  OwnerReferences : Option (List OwnerReference) := none
  deriving DecidableEq, Repr

/-- The router custom resource of `types.go`; it embeds `TypeMeta` and `ObjectMeta`. -/
structure Router extends TypeMeta, ObjectMeta where
  Spec : RouterSpec := {}
  Status : RouterStatus := {}
  deriving DecidableEq, Repr

structure ObjectFieldSelector where
  FieldPath : String := ""
  deriving DecidableEq, Repr

structure EnvVarSource where
  FieldRef : Option ObjectFieldSelector := none
  deriving DecidableEq, Repr

structure EnvVar where
  Name : String := ""
  Value : String := ""
  ValueFrom : Option EnvVarSource := none
  deriving DecidableEq, Repr

structure ContainerPort where
  Name : String := ""
  HostPort : Int := 0
  ContainerPort : Int := 0
  Protocol : String := ""
  HostIP : String := ""
  deriving DecidableEq, Repr

structure VolumeMount where
  Name : String := ""
  ReadOnly : Bool := false
  MountPath : String := ""
  SubPath : String := ""
  deriving DecidableEq, Repr

structure Container where
  Name : String := ""
  Image : String := ""
  Ports : Option (List ContainerPort) := none
  Env : Option (List EnvVar) := none
  VolumeMounts : Option (List VolumeMount) := none
  deriving DecidableEq, Repr

structure SecretVolumeSource where
  SecretName : String := ""
  deriving DecidableEq, Repr

structure VolumeSource where
  Secret : Option SecretVolumeSource := none
  deriving DecidableEq, Repr

structure Volume where
  Name : String := ""
  VolumeSource : VolumeSource := {}
  deriving DecidableEq, Repr

structure PodSpec where
  Volumes : Option (List Volume) := none
  Containers : Option (List Container) := none
  deriving DecidableEq, Repr

structure PodTemplateSpec extends ObjectMeta where
  Spec : PodSpec := {}
  deriving DecidableEq, Repr

structure LabelSelector where
  MatchLabels : GoMap := none
  deriving DecidableEq, Repr

structure DeploymentSpec where
  Replicas : Option Int := none
  Selector : Option LabelSelector := none
  Template : PodTemplateSpec := {}
  deriving DecidableEq, Repr

structure Deployment extends TypeMeta, ObjectMeta where
  Spec : DeploymentSpec := {}
  deriving DecidableEq, Repr

/-- The type `intstr.IntOrString`. -/
inductive IntOrString where
  | int (IntVal : Int)
  | str (StrVal : String)
  deriving DecidableEq, Repr

structure ServicePort where
  Name : String := ""
  Protocol : String := ""
  Port : Int := 0
  TargetPort : IntOrString := IntOrString.int 0
  NodePort : Int := 0
  deriving DecidableEq, Repr

structure ServiceSpec where
  Ports : Option (List ServicePort) := none
  Selector : GoMap := none
  deriving DecidableEq, Repr

structure Service extends TypeMeta, ObjectMeta where
  Spec : ServiceSpec := {}
  deriving DecidableEq, Repr

structure Pod extends TypeMeta, ObjectMeta where
  deriving DecidableEq, Repr

/-! ## `pkg/stub/handler.go`: defaulting -/

def isDefaultSslProfileDefined (m : Router) : Bool :=
  m.Spec.SslProfiles.any (fun profile => profile.Name == "default")

def isDefaultSslProfileUsed (m : Router) : Bool :=
  if m.Spec.Listeners.any (fun listener => listener.SslProfile == "default") then true
  else if m.Spec.InterRouterListeners.any (fun listener => listener.SslProfile == "default") then
    true
  else false

/-- One iteration of the last loop of `setRouterDefaults`.  The loop variable `profile`
is a copy of the slice element: the assignment to `profile.Credentials` changes the copy,
which is dropped at the end of the iteration, and only `requestCert` survives. -/
def defaultCredentialsStep (name : String) (requestCert : Bool) (profile : SslProfile) : Bool :=
  if profile.Credentials = "" then
    let _profile : SslProfile := { profile with Credentials := name ++ "-cert" }
    true
  else requestCert

/-- The function `setRouterDefaults`: the router as mutated, and the returned flag. -/
def setRouterDefaults (m : Router) : Router × Bool :=
  let requestCert := false
  let m : Router :=
    if m.Spec.Listeners.length = 0 then
      { m with Spec := { m.Spec with Listeners := m.Spec.Listeners ++
          [{ Port := 5672 },
           { Port := 5671, SslProfile := "default" },
           { Port := 8672, Http := true, SslProfile := "default" }] } }
    else m
  let m : Router :=
    if m.Spec.InterRouterListeners.length = 0 then
      { m with Spec := { m.Spec with InterRouterListeners := m.Spec.InterRouterListeners ++
          [{ Port := 55672 }] } }
    else m
  let (m, requestCert) : Router × Bool :=
    if !isDefaultSslProfileDefined m && isDefaultSslProfileUsed m then
      ({ m with Spec := { m.Spec with SslProfiles := m.Spec.SslProfiles ++
          [{ Name := "default", Credentials := m.Name ++ "-cert" }] } }, true)
    else (m, requestCert)
  let requestCert := m.Spec.SslProfiles.foldl (defaultCredentialsStep m.Name) requestCert
  (m, requestCert)

/-! ## `pkg/stub/handler.go`: the configuration document

`configForRouter` executes a `text/template` on `m.Spec` and returns what was written to
the buffer; the error returned by `Execute` is dropped.  Every action of the template
that follows a text uses the left trim marker, so each text ends at its last
non-blank character.  A field or `if` on a name that the element type does not declare
stops the execution; what was written before it stays in the buffer. -/

/-- The decimal rendering of an integer, as `strconv.Itoa` and the template's printing
of an `int32` give it. -/
def itoa (n : Int) : String := toString n

/-- What executing a part of the template yields: the text written, and whether the
execution stopped with an error. -/
structure Exec where
  out : String
  failed : Bool
  deriving DecidableEq, Repr

/-- A part of the template that writes `s` and cannot fail. -/
def Exec.text (s : String) : Exec := ⟨s, false⟩

/-- Execution of one part after another: the second runs only when the first did not
stop. -/
def Exec.seq (a b : Exec) : Exec :=
  if a.failed then a else ⟨a.out ++ b.out, b.failed⟩

/-- The action `range` of the template: the body is executed on every element in order,
until one stops. -/
def execRange {α : Type} (body : α → Exec) : List α → Exec
  | [] => Exec.text ""
  | x :: xs => Exec.seq (body x) (execRange body xs)

/-- The body of `range .Listeners`. -/
def listenerBlock (l : Listener) : String :=
  "\n    listener \x7b"
  ++ (if l.Name ≠ "" then "\n        name: " ++ l.Name else "")
  ++ (if l.Host ≠ "" then "\n        host: " ++ l.Host else "\n        host: 0.0.0.0")
  ++ (if l.Port ≠ 0 then "\n        port: " ++ itoa l.Port else "")
  ++ (if l.RouteContainer then "\n        role: route-container" else "\n        role: normal")
  ++ (if l.Http then
        "\n        http: true\n        httpRootDir: /usr/share/qpid-dispatch/console"
      else "")
  ++ (if l.SslProfile ≠ "" then "\n        sslProfile: " ++ l.SslProfile else "")
  ++ "\n    \x7d"

/-- The body of `range .InterRouterListeners`. -/
def interRouterListenerBlock (l : Listener) : String :=
  "\n    listener \x7b"
  ++ (if l.Name ≠ "" then "\n        name: " ++ l.Name else "")
  ++ "\n        role: inter-router"
  ++ (if l.Host ≠ "" then "\n        host: " ++ l.Host else "\n        host: 0.0.0.0")
  ++ (if l.Port ≠ 0 then "\n        port: " ++ itoa l.Port else "")
  ++ (if l.Cost ≠ 0 then "\n        cost: " ++ itoa l.Cost else "")
  ++ (if l.SslProfile ≠ "" then "\n        sslProfile: " ++ l.SslProfile else "")
  ++ "\n    \x7d"

/-- The body of `range .SslProfiles`. -/
def sslProfileBlock (p : SslProfile) : String :=
  "\n    sslProfile \x7b\n       name: " ++ p.Name
  ++ (if p.Credentials ≠ "" then
        "\n       certFile: /etc/qpid-dispatch-certs/" ++ p.Name ++ "/" ++ p.Credentials
          ++ "/tls.crt"
        ++ "\n       privateKeyFile: /etc/qpid-dispatch-certs/" ++ p.Name ++ "/" ++ p.Credentials
          ++ "/tls.key"
      else "")
  ++ (if p.CaCert ≠ "" then
        "\n       caCertFile: /etc/qpid-dispatch-certs/" ++ p.Name ++ "/" ++ p.CaCert ++ "/ca.crt"
      else if p.RequireClientCerts then
        "\n       caCertFile: /var/run/secrets/kubernetes.io/serviceaccount/ca.crt"
      else "")
  ++ "\n    \x7d"

/-- The template's printing of an `*int32` that is not nil: the value it points to. -/
def printPhase (p : Option Int) : String :=
  match p with
  | none => ""
  | some v => itoa v

/-- The body of `range .Addresses`. -/
def addressBlock (a : Address) : String :=
  "\n    address \x7b"
  ++ (if a.Prefix ≠ "" then "\n        prefix: " ++ a.Prefix else "")
  ++ (if a.Pattern ≠ "" then "\n        pattern: " ++ a.Pattern else "")
  ++ (if a.Distribution ≠ "" then "\n        distribution: " ++ a.Distribution else "")
  ++ (if a.Waypoint then "\n        waypoint: true" else "")
  ++ (if a.IngressPhase.isSome then "\n        ingressPhase: " ++ printPhase a.IngressPhase
      else "")
  ++ (if a.EgressPhase.isSome then "\n        egressPhase: " ++ printPhase a.EgressPhase else "")
  ++ "\n    \x7d"

/-- The body of `range .LinkRoutes`. -/
def linkRouteBlock (r : LinkRoute) : String :=
  "\n    linkRoute \x7b"
  ++ (if r.Prefix ≠ "" then "\n        prefix: " ++ r.Prefix else "")
  ++ (if r.Pattern ≠ "" then "\n        pattern: " ++ r.Pattern else "")
  ++ (if r.Direction ≠ "" then "\n        direction: " ++ r.Direction else "")
  ++ (if r.Connection ≠ "" then "\n        connection: " ++ r.Connection else "")
  ++ (if r.ContainerId ≠ "" then "\n        containerId: " ++ r.ContainerId else "")
  ++ (if r.AddExternalPrefix ≠ "" then "\n        addExternalPrefix: " ++ r.AddExternalPrefix
      else "")
  ++ (if r.RemoveExternalPrefix ≠ "" then
        "\n        removeExternalPrefix: " ++ r.RemoveExternalPrefix
      else "")
  ++ "\n    \x7d"

/-- The body of `range .AutoLinks`.  The elements are of type `Address`, which has no
field `Address`: the opening text is written and the first action, `if .Address`,
stops the execution. -/
def autoLinkBlock (_a : Address) : Exec :=
  ⟨"\n    autoLink \x7b", true⟩

/-- The body of `range .Connectors`.  The type `Connector` has no field `Role`: the name,
host and port lines are written and the action `if .Role` stops the execution. -/
def connectorBlock (c : Connector) : Exec :=
  ⟨"\n    connector \x7b"
    ++ (if c.Name ≠ "" then "\n        name: " ++ c.Name else "")
    ++ (if c.Host ≠ "" then "\n        host: " ++ c.Host else "")
    ++ (if c.Port ≠ 0 then "\n        port: " ++ itoa c.Port else "")
   , true⟩

/-- The text between two sections of the template. -/
def sectionGap : String := "\n\n    "

/-- The router identity block that opens the document, with the gap after it. -/
def routerBlock : String :=
  "\n    router \x7b\n        mode: interior\n        id: $\x7bHOSTNAME\x7d\n    \x7d" ++ sectionGap

/-- Execution of the template of `configForRouter` on a spec. -/
def executeTemplate (spec : RouterSpec) : Exec :=
  (Exec.text routerBlock).seq <|
  (execRange (fun l => Exec.text (listenerBlock l)) spec.Listeners).seq <|
  (Exec.text sectionGap).seq <|
  (execRange (fun l => Exec.text (interRouterListenerBlock l)) spec.InterRouterListeners).seq <|
  (Exec.text sectionGap).seq <|
  (execRange (fun p => Exec.text (sslProfileBlock p)) spec.SslProfiles).seq <|
  (Exec.text sectionGap).seq <|
  (execRange (fun a => Exec.text (addressBlock a)) spec.Addresses).seq <|
  (Exec.text sectionGap).seq <|
  (execRange (fun r => Exec.text (linkRouteBlock r)) spec.LinkRoutes).seq <|
  (Exec.text sectionGap).seq <|
  (execRange autoLinkBlock spec.AutoLinks).seq <|
  (Exec.text sectionGap).seq <|
  (execRange connectorBlock spec.Connectors)

def configForRouter (m : Router) : String :=
  (executeTemplate m.Spec).out

/-! ## `pkg/stub/handler.go`: the desired container, ports, service and deployment -/

def certRequestAnnotation : String := "service.alpha.openshift.io/serving-cert-secret-name"

/-- The comparison of `checkContainer`; `reflect.DeepEqual` on slices of plain structs is
equality of the model values, a nil slice differing from an empty one. -/
def checkContainer (desired actual : Container) : Bool :=
  if !(desired.Env == actual.Env) then false
  else if !(desired.Ports == actual.Ports) then false
  else if !(desired.VolumeMounts == actual.VolumeMounts) then false
  else true

def nameForListener (l : Listener) : String :=
  if l.Name = "" then "port-" ++ itoa l.Port
  else l.Name

def containerPortsForListeners (listeners : List Listener) : Option (List ContainerPort) :=
  listeners.foldl
    (fun ports listener =>
      goAppend ports [{ Name := nameForListener listener, ContainerPort := listener.Port }])
    (some [])

def containerPortsForRouter (m : Router) : Option (List ContainerPort) :=
  let ports := containerPortsForListeners m.Spec.Listeners
  goAppend ports ((containerPortsForListeners m.Spec.InterRouterListeners).getD [])

/-- One iteration of the loop of `containerForRouter` over the SSL profiles. -/
def volumeMountsStep (volumeMounts : Option (List VolumeMount)) (profile : SslProfile) :
    Option (List VolumeMount) :=
  let volumeMounts :=
    if profile.Credentials.length > 0 then
      goAppend volumeMounts [{
        Name := profile.Credentials,
        MountPath := "/etc/qpid-dispatch-certs/" ++ profile.Name ++ "/" ++ profile.Credentials }]
    else volumeMounts
  if profile.CaCert.length > 0 ∧ profile.CaCert ≠ profile.Credentials then
    goAppend volumeMounts [{
      Name := profile.CaCert,
      MountPath := "/etc/qpid-dispatch-certs/" ++ profile.Name ++ "/" ++ profile.CaCert }]
  else volumeMounts

def containerForRouter (m : Router) (config : String) : Container :=
  let container : Container := {
    Image := "amq-interconnect/amq-interconnect-1.2-openshift:latest",
    Name := "router",
    Env := some [
      { Name := "QDROUTERD_CONF", Value := config },
      { Name := "QDROUTERD_AUTO_MESH_DISCOVERY", Value := "QUERY" },
      { Name := "APPLICATION_NAME", Value := m.Name },
      { Name := "POD_NAMESPACE",
        ValueFrom := some { FieldRef := some { FieldPath := "metadata.namespace" } } },
      { Name := "POD_IP",
        ValueFrom := some { FieldRef := some { FieldPath := "status.podIP" } } }],
    Ports := containerPortsForRouter m }
  if m.Spec.SslProfiles.length > 0 then
    let volumeMounts := m.Spec.SslProfiles.foldl volumeMountsStep (some [])
    { container with VolumeMounts := volumeMounts }
  else container

def servicePortsForListeners (listeners : List Listener) : Option (List ServicePort) :=
  listeners.foldl
    (fun ports listener =>
      goAppend ports [{
        Name := nameForListener listener,
        Protocol := "TCP",
        Port := listener.Port,
        TargetPort := IntOrString.int listener.Port }])
    (some [])

def portsForRouter (m : Router) : Option (List ServicePort) :=
  let ports : Option (List ServicePort) := some []
  let external := servicePortsForListeners m.Spec.Listeners
  let internal := servicePortsForListeners m.Spec.InterRouterListeners
  let ports := goAppend ports (external.getD [])
  goAppend ports (internal.getD [])

/-- The function `checkService`: `none` when the write into a nil annotation map faults,
otherwise the returned flag and the observed service as mutated. -/
def checkService (desired actual : Service) : Option (Bool × Service) :=
  let update := false
  let annotated : Option Service :=
    if !(desired.Annotations.get certRequestAnnotation
          == actual.Annotations.get certRequestAnnotation) then
      (actual.Annotations.set certRequestAnnotation
          (desired.Annotations.get certRequestAnnotation)).map
        (fun annotations => { actual with Annotations := annotations })
    else some actual
  match annotated with
  | none => none
  | some actual =>
    let actual : Service :=
      if !(GoMap.deepEqual desired.Spec.Selector actual.Spec.Selector) then
        { actual with Spec := { actual.Spec with Selector := desired.Spec.Selector } }
      else actual
    let actual : Service :=
      if !(desired.Spec.Ports == actual.Spec.Ports) then
        { actual with Spec := { actual.Spec with Ports := desired.Spec.Ports } }
      else actual
    some (update, actual)

/-- The function `labelsForRouter`. -/
def labelsForRouter (name : String) : GoMap :=
  some [("application", name), ("router_cr", name)]

/-- The function `asOwner`. -/
def asOwner (m : Router) : OwnerReference :=
  { APIVersion := m.APIVersion, Kind := m.Kind, Name := m.Name, UID := m.UID,
    Controller := some true }

/-- The function `addOwnerRefToObject`, on the metadata of the object. -/
def addOwnerRefToObject (obj : ObjectMeta) (ownerRef : OwnerReference) : ObjectMeta :=
  { obj with OwnerReferences := goAppend obj.OwnerReferences [ownerRef] }

def serviceForRouter (m : Router) (requestCert : Bool) : Service :=
  let ls := labelsForRouter m.Name
  let service : Service := {
    APIVersion := "v1",
    Kind := "Service",
    Name := m.Name,
    Namespace := m.Namespace,
    Spec := { Selector := ls, Ports := portsForRouter m } }
  let service : Service :=
    if requestCert then
      { service with Annotations := some [( certRequestAnnotation, m.Name ++ "-cert")] }
    else service
  { service with toObjectMeta := addOwnerRefToObject service.toObjectMeta (asOwner m) }

/-- One iteration of the loop of `deploymentForRouter` over the SSL profiles. -/
def volumesStep (volumes : Option (List Volume)) (profile : SslProfile) :
    Option (List Volume) :=
  let volumes :=
    if profile.Credentials.length > 0 then
      goAppend volumes [{
        Name := profile.Credentials,
        VolumeSource := { Secret := some { SecretName := profile.Credentials } } }]
    else volumes
  if profile.CaCert.length > 0 ∧ profile.CaCert ≠ profile.Credentials then
    goAppend volumes [{
      Name := profile.CaCert,
      VolumeSource := { Secret := some { SecretName := profile.CaCert } } }]
  else volumes

def deploymentForRouter (m : Router) : Deployment :=
  let ls := labelsForRouter m.Name
  let config := configForRouter m
  let dep : Deployment := {
    APIVersion := "apps/v1",
    Kind := "Deployment",
    Name := m.Name,
    Namespace := m.Namespace,
    Spec := {
      Selector := some { MatchLabels := ls },
      Template := {
        Labels := ls,
        Spec := { Containers := some [containerForRouter m config] } } } }
  let volumes := m.Spec.SslProfiles.foldl volumesStep (some [])
  let dep : Deployment :=
    { dep with Spec := { dep.Spec with Template := { dep.Spec.Template with
        Spec := { dep.Spec.Template.Spec with Volumes := volumes } } } }
  let size := m.Spec.Size
  let dep : Deployment :=
    if size ≠ 0 then { dep with Spec := { dep.Spec with Replicas := some size } }
    else dep
  { dep with toObjectMeta := addOwnerRefToObject dep.toObjectMeta (asOwner m) }

/-- The function `getPodNames`; `var podNames []string` starts as the nil slice. -/
def getPodNames (pods : List Pod) : Option (List String) :=
  pods.foldl (fun podNames pod => goAppend podNames [pod.Name]) none

/-! ## `pkg/stub/handler.go`: the reconciliation pass

The store primitives `sdk.Create`, `sdk.Get`, `sdk.Update` and `sdk.List` are outside the
repository.  A pass calls each of them at most once per object kind, so the store is given
as the answer to each call.  `sdk.Create` and `sdk.Get` write the stored object into their
argument. -/

/-- An `error` returned by a store call. -/
inductive SdkError where
  | alreadyExists (msg : String)
  | other (msg : String)
  deriving DecidableEq, Repr

/-- The predicate `apierrors.IsAlreadyExists`. -/
def IsAlreadyExists (err : SdkError) : Bool :=
  match err with
  | SdkError.alreadyExists _ => true
  | SdkError.other _ => false

/-- The text of an error, as `%v` prints it. -/
def SdkError.text (err : SdkError) : String :=
  match err with
  | SdkError.alreadyExists msg => msg
  | SdkError.other msg => msg

/-- The answers of the store during one pass.  A create call answers with its argument as
the call left it and the error, if any; a list call takes the namespace and the label set
the selector is built from. -/
structure Sdk where
  CreateDeployment : Deployment → Deployment × Option SdkError
  GetDeployment : Deployment → Except SdkError Deployment
  UpdateDeployment : Deployment → Option SdkError
  CreateService : Service → Service × Option SdkError
  GetService : Service → Except SdkError Service
  UpdateService : Service → Option SdkError
  ListPods : String → GoMap → Except SdkError (List Pod)
  UpdateRouter : Router → Option SdkError

/-- A store call issued by a pass, with its argument at the time of the call. -/
inductive Call where
  | createDeployment (dep : Deployment)
  | getDeployment (dep : Deployment)
  | updateDeployment (dep : Deployment)
  | createService (service : Service)
  | getService (service : Service)
  | updateService (service : Service)
  | listPods (ns : String) (labelSet : GoMap)
  | updateRouter (router : Router)
  deriving DecidableEq, Repr

/-- How a pass ends: `nil`, an error, or a run-time fault (nil dereference, write into a
nil map). -/
inductive Outcome where
  | ok
  | error (msg : String)
  | fault
  deriving DecidableEq, Repr

/-- A pass, or a part of one: the store calls issued, in order, and how it ended. -/
structure Pass where
  calls : List Call
  result : Outcome
  deriving DecidableEq, Repr

/-- Sequencing of two parts of a pass: the second runs only when the first ended `ok`. -/
def Pass.andThen (a : Pass) (b : Pass) : Pass :=
  match a.result with
  | Outcome.ok => ⟨a.calls ++ b.calls, b.result⟩
  | _ => a

/-- The object the event carries; the handler switches on its type. -/
inductive EventObject where
  | router (o : Router)
  | other
  deriving DecidableEq, Repr

structure Event where
  Object : EventObject
  Deleted : Bool := false
  deriving DecidableEq, Repr

/-- The part of `Handle` from `update := false` to the update call of the deployment
(lines 57 to 74), on the deployment as fetched. -/
def updateDeployment (sdk : Sdk) (router : Router) (container : Container)
    (dep : Deployment) : Pass :=
  let update := false
  let size := router.Spec.Size
  -- `size != 0 && *dep.Spec.Replicas != size` dereferences the pointer only when `size != 0`
  let sized : Option (Deployment × Bool) :=
    if size ≠ 0 then
      match dep.Spec.Replicas with
      | none => none
      | some replicas =>
        if replicas ≠ size then
          some ({ dep with Spec := { dep.Spec with Replicas := some size } }, true)
        else some (dep, update)
    else some (dep, update)
  match sized with
  | none => ⟨[], Outcome.fault⟩
  | some (dep, update) =>
    let differs : Bool :=
      match dep.Spec.Template.Spec.Containers with
      | some [actual] => !checkContainer container actual
      | _ => true
    let (dep, update) : Deployment × Bool :=
      if differs then
        ({ dep with Spec := { dep.Spec with Template := { dep.Spec.Template with
            Spec := { dep.Spec.Template.Spec with Containers := some [container] } } } }, true)
      else (dep, update)
    if update then
      match sdk.UpdateDeployment dep with
      | some err =>
        ⟨[Call.updateDeployment dep], Outcome.error ("failed to update deployment: " ++ err.text)⟩
      | none => ⟨[Call.updateDeployment dep], Outcome.ok⟩
    else ⟨[], Outcome.ok⟩

/-- The part of `Handle` that converges the deployment (lines 44 to 74). -/
def handleDeployment (sdk : Sdk) (router : Router) : Pass :=
  let config := configForRouter router
  let container := containerForRouter router config
  let dep := deploymentForRouter router
  let created := sdk.CreateDeployment dep
  let create : Pass :=
    match created.2 with
    | some err =>
      if !IsAlreadyExists err then
        ⟨[Call.createDeployment dep],
          Outcome.error ("failed to create deployment: " ++ err.text)⟩
      else ⟨[Call.createDeployment dep], Outcome.ok⟩
    | none => ⟨[Call.createDeployment dep], Outcome.ok⟩
  let dep := created.1
  create.andThen <|
    match sdk.GetDeployment dep with
    | Except.error err =>
      ⟨[Call.getDeployment dep], Outcome.error ("failed to get deployment: " ++ err.text)⟩
    | Except.ok fetched =>
      Pass.andThen ⟨[Call.getDeployment dep], Outcome.ok⟩
        (updateDeployment sdk router container fetched)

/-- The part of `Handle` that converges the service (lines 76 to 91). -/
def handleService (sdk : Sdk) (router : Router) (requestCert : Bool) : Pass :=
  let service := serviceForRouter router requestCert
  let created := sdk.CreateService service
  let create : Pass :=
    match created.2 with
    | some err =>
      if !IsAlreadyExists err then
        ⟨[Call.createService service], Outcome.error ("failed to create service: " ++ err.text)⟩
      else ⟨[Call.createService service], Outcome.ok⟩
    | none => ⟨[Call.createService service], Outcome.ok⟩
  let service := created.1
  let actual := service
  create.andThen <|
    match sdk.GetService actual with
    | Except.error err =>
      ⟨[Call.getService actual], Outcome.error ("failed to get service: " ++ err.text)⟩
    | Except.ok actual0 =>
      Pass.andThen ⟨[Call.getService actual], Outcome.ok⟩ <|
        match checkService service actual0 with
        | none => ⟨[], Outcome.fault⟩
        | some (update, actual) =>
          if update then
            match sdk.UpdateService actual with
            | some err =>
              ⟨[Call.updateService actual],
                Outcome.error ("failed to update service: " ++ err.text)⟩
            | none => ⟨[Call.updateService actual], Outcome.ok⟩
          else ⟨[], Outcome.ok⟩

/-- The part of `Handle` that reconciles the status (lines 93 to 108). -/
def handleStatus (sdk : Sdk) (router : Router) : Pass :=
  let labelSet := labelsForRouter router.Name
  match sdk.ListPods router.Namespace labelSet with
  | Except.error err =>
    ⟨[Call.listPods router.Namespace labelSet],
      Outcome.error ("failed to list pods: " ++ err.text)⟩
  | Except.ok items =>
    Pass.andThen ⟨[Call.listPods router.Namespace labelSet], Outcome.ok⟩ <|
      let podNames := getPodNames items
      if !(podNames == router.Status.Nodes) then
        let router : Router := { router with Status := { router.Status with Nodes := podNames } }
        match sdk.UpdateRouter router with
        | some err =>
          ⟨[Call.updateRouter router],
            Outcome.error ("failed to update router status: " ++ err.text)⟩
        | none => ⟨[Call.updateRouter router], Outcome.ok⟩
      else ⟨[], Outcome.ok⟩

/-- The method `Handle`. -/
def Handle (sdk : Sdk) (event : Event) : Pass :=
  match event.Object with
  | EventObject.router o =>
    let router := o
    if event.Deleted then ⟨[], Outcome.ok⟩
    else
      let defaulted := setRouterDefaults router
      let router := defaulted.1
      let requestCert := defaulted.2
      (handleDeployment sdk router).andThen <|
      (handleService sdk router requestCert).andThen <|
      handleStatus sdk router
  | EventObject.other => ⟨[], Outcome.ok⟩

/-- The number of deployment update calls in a list of store calls. -/
def countDeploymentUpdates (calls : List Call) : Nat :=
  calls.countP (fun c => match c with | Call.updateDeployment _ => true | _ => false)

/-- The number of router update calls in a list of store calls. -/
def countRouterUpdates (calls : List Call) : Nat :=
  calls.countP (fun c => match c with | Call.updateRouter _ => true | _ => false)

/-- A store that answers like `sdk`, its create call for the deployment reporting no
error. -/
def withDeploymentCreated (sdk : Sdk) : Sdk :=
  { sdk with CreateDeployment := fun dep => ((sdk.CreateDeployment dep).1, none) }

/-- A store that answers like `sdk`, its create call for the service reporting no error. -/
def withServiceCreated (sdk : Sdk) : Sdk :=
  { sdk with CreateService := fun service => ((sdk.CreateService service).1, none) }

/-- The number of service update calls in a list of store calls. -/
def countServiceUpdates (calls : List Call) : Nat :=
  calls.countP (fun c => match c with | Call.updateService _ => true | _ => false)

/-! ## Reading a configuration document -/

/-- The lines of a text: the pieces between line feeds. -/
def linesOf : List Char → List (List Char)
  | [] => [[]]
  | c :: cs =>
    if c = Char.ofNat 10 then [] :: linesOf cs
    else
      match linesOf cs with
      | [] => [[c]]
      | l :: ls => (c :: l) :: ls

/-- The number of blocks of one kind in a document: the lines that open such a block,
`    <kind> \x7b`. -/
def countBlocks (kind : String) (doc : String) : Nat :=
  (linesOf doc.data).count ("    " ++ kind ++ " \x7b").data

/-- The last line of a document. -/
def lastLine (doc : String) : Option String :=
  (linesOf doc.data).getLast?.map String.mk

/-- The text of blocks written one after another. -/
def joinBlocks : List String → String
  | [] => ""
  | block :: rest => block ++ joinBlocks rest

/-- The part of the template after the two listener sections. -/
def executeAfterListeners (spec : RouterSpec) : Exec :=
  (execRange (fun p => Exec.text (sslProfileBlock p)) spec.SslProfiles).seq <|
  (Exec.text sectionGap).seq <|
  (execRange (fun a => Exec.text (addressBlock a)) spec.Addresses).seq <|
  (Exec.text sectionGap).seq <|
  (execRange (fun r => Exec.text (linkRouteBlock r)) spec.LinkRoutes).seq <|
  (Exec.text sectionGap).seq <|
  (execRange autoLinkBlock spec.AutoLinks).seq <|
  (Exec.text sectionGap).seq <|
  (execRange connectorBlock spec.Connectors)

/-! ## Reading a deployment -/

/-- The names of the pod volumes of a deployment, in order. -/
def podVolumeNames (dep : Deployment) : List String :=
  (dep.Spec.Template.Spec.Volumes.getD []).map (fun v => v.Name)

/-- The names of the volume mounts of a container, in order. -/
def volumeMountNames (c : Container) : List String :=
  (c.VolumeMounts.getD []).map (fun v => v.Name)

/-- The secret names one profile contributes a volume for, as the loop body of
`deploymentForRouter` selects them: the credential name when it is not empty, then the
CA-cert name when it is not empty and differs from the credential name. -/
def profileSecretNames (p : SslProfile) : List String :=
  (if p.Credentials ≠ "" then [p.Credentials] else []) ++
  (if p.CaCert ≠ "" ∧ p.CaCert ≠ p.Credentials then [p.CaCert] else [])

/-! ## Inputs used in the concrete statements -/

/-- A store that accepts every call and answers a fetch with the object as sent. -/
def echoSdk : Sdk :=
  { CreateDeployment := fun dep => (dep, none),
    GetDeployment := fun dep => Except.ok dep,
    UpdateDeployment := fun _ => none,
    CreateService := fun service => (service, none),
    GetService := fun service => Except.ok service,
    UpdateService := fun _ => none,
    ListPods := fun _ _ => Except.ok [],
    UpdateRouter := fun _ => none }

/-- A router with two named client-facing listeners and one inter-router listener whose
route-container flag is set. -/
def listenerRouter : Router :=
  { Name := "r8",
    Spec := {
      Listeners := [{ Name := "amqp", Port := 5672 },
                    { Name := "amqps", Host := "10.0.0.1", Port := 5671, RouteContainer := true }],
      InterRouterListeners := [{ Port := 55672, RouteContainer := true }] } }

/-- A defaulted router with two connectors. -/
def connectorRouter : Router :=
  (setRouterDefaults
    { Name := "r6",
      Spec := { Connectors := [{ Name := "c1", Host := "h1", Port := 5672, Cost := 2 },
                                { Name := "c2", Host := "h2", Port := 5673 }] } }).1

/-- A defaulted router with one auto-link entry and one connector. -/
def autoLinkRouter : Router :=
  (setRouterDefaults
    { Name := "r7",
      Spec := { AutoLinks := [{ Prefix := "queue" }],
                Connectors := [{ Name := "c1", Host := "h1", Port := 5672 }] } }).1

/-- A store that accepts every call and lists two running instances. -/
def podSdk : Sdk :=
  { echoSdk with
    ListPods := fun _ _ => Except.ok [({ Name := "r1-a" } : Pod), ({ Name := "r1-b" } : Pod)] }

/-- The router `r1` whose stored status names the two instances in the other order. -/
def reorderedRouter : Router :=
  { Name := "r1", Spec := { Size := 3 }, Status := { Nodes := some ["r1-b", "r1-a"] } }

/-- A store whose create call for the deployment is refused. -/
def brokenSdk : Sdk :=
  { echoSdk with CreateDeployment := fun dep => (dep, some (SdkError.other "forbidden")) }

/-- A router whose two SSL profiles reference the same secret. -/
def sharedSecretRouter : Router :=
  { Name := "r4",
    Spec := {
      Listeners := [{ Port := 5671, SslProfile := "a" }, { Port := 5673, SslProfile := "b" }],
      InterRouterListeners := [{ Port := 55672 }],
      SslProfiles := [{ Name := "a", Credentials := "tls" }, { Name := "b", Credentials := "tls" }] } }

/-- A router whose two SSL profiles reference three different secrets. -/
def distinctSecretsRouter : Router :=
  { Name := "r5",
    Spec := {
      Listeners := [{ Port := 5671, SslProfile := "a" }, { Port := 5673, SslProfile := "b" }],
      InterRouterListeners := [{ Port := 55672 }],
      SslProfiles := [{ Name := "a", Credentials := "tls-a", CaCert := "ca" },
                      { Name := "b", Credentials := "tls-b", CaCert := "tls-b" }] } }

/-- The router `r1` of size 3 that declares no listener and no SSL profile. -/
def r1 : Router :=
  { Name := "r1", Spec := { Size := 3 } }

/-- A router that declares nothing but its name. -/
def bareRouter : Router :=
  { Name := "edge" }

/-- A router that declares no listener, with size 2. -/
def meshRouter : Router :=
  { Name := "mesh", Spec := { Size := 2 } }

/-- A router that declares one inter-router listener and nothing else. -/
def onlyInterRouter : Router :=
  { Name := "r2", Spec := { InterRouterListeners := [{ Port := 55672 }] } }

/-- A router that declares a client-facing listener referencing profile `default`. -/
def tlsRouter : Router :=
  { Name := "r3",
    Spec := {
      Listeners := [{ Port := 5671, SslProfile := "default" }],
      SslProfiles := [{ Name := "internal", Credentials := "internal-secret" }] } }

/-- The desired service of a router `r1` with one declared listener. -/
def driftDesired : Service :=
  serviceForRouter
    { Name := "r1", Namespace := "ns",
      Spec := { Listeners := [{ Port := 5672 }], InterRouterListeners := [{ Port := 55672 }] } }
    false

/-- The same service as the store holds it, with an empty port list. -/
def driftActual : Service :=
  { driftDesired with Spec := { driftDesired.Spec with Ports := some [] } }

/-- The router whose desired service is `driftDesired`. -/
def driftRouter : Router :=
  { Name := "r1", Namespace := "ns",
    Spec := { Listeners := [{ Port := 5672 }], InterRouterListeners := [{ Port := 55672 }] } }

/-- A store that accepts every call, finds the service already created and answers its
fetch with `driftActual`. -/
def driftSdk : Sdk :=
  { CreateDeployment := fun dep => (dep, none),
    GetDeployment := fun dep => Except.ok dep,
    UpdateDeployment := fun _ => none,
    CreateService := fun service => (service, some (SdkError.alreadyExists "exists")),
    GetService := fun _ => Except.ok driftActual,
    UpdateService := fun _ => none,
    ListPods := fun _ _ => Except.ok [],
    UpdateRouter := fun _ => none }

/-- A router that declares its listeners and one SSL profile without credential name. -/
def emptyCredentialRouter : Router :=
  { Name := "r1",
    Spec := {
      Listeners := [{ Port := 5672 }],
      InterRouterListeners := [{ Port := 55672 }],
      SslProfiles := [{ Name := "tls" }] } }

/-- A deployment as the store holds it, created for a router without SSL profile: it has no
pod volume. -/
def staleFetched : Deployment :=
  deploymentForRouter { Name := "r3", Spec := { Listeners := [{ Port := 5672 }] } }

/-- A store that accepts every call and answers the fetch of the deployment with
`staleFetched`. -/
def staleSdk : Sdk :=
  { echoSdk with GetDeployment := fun _ => Except.ok staleFetched }

/-- The deployment `staleFetched` with its container list replaced by the desired
container of the defaulted `tlsRouter`. -/
def staleSent : Deployment :=
  { staleFetched with Spec := { staleFetched.Spec with
      Template := { staleFetched.Spec.Template with Spec := { staleFetched.Spec.Template.Spec with
        Containers := some [containerForRouter (setRouterDefaults tlsRouter).1
          (configForRouter (setRouterDefaults tlsRouter).1)] } } } }

/-- A desired service that carries the certificate-request annotation with an empty
value. -/
def emptyAnnotationDesired : Service :=
  { Name := "r1", Namespace := "ns",
    Annotations := some [( certRequestAnnotation, "")],
    Spec := { Selector := labelsForRouter "r1", Ports := some [] } }

/-- A store that accepts every call and answers the fetch of the service with the given
one. -/
def fetchedServiceSdk (fetched : Service) : Sdk :=
  { echoSdk with GetService := fun _ => Except.ok fetched }

/-- An observed service without annotation map. -/
def unannotatedActual : Service :=
  { Name := "r1", Namespace := "ns",
    Spec := { Selector := labelsForRouter "r1", Ports := some [] } }

/-- A router of size 0 that declares its listeners and one SSL profile without secret name:
its desired container has an empty mount list that is not nil. -/
def noSecretRouter : Router :=
  { Name := "r9",
    Spec := {
      Listeners := [{ Port := 5672 }],
      InterRouterListeners := [{ Port := 55672 }],
      SslProfiles := [{ Name := "p" }] } }

/-- The desired container of `noSecretRouter` with the nil mount list instead of the empty
one. -/
def nilMountsContainer : Container :=
  { containerForRouter (setRouterDefaults noSecretRouter).1
      (configForRouter (setRouterDefaults noSecretRouter).1) with VolumeMounts := none }

/-- The desired deployment of `noSecretRouter` as a store holds it, its one container being
`nilMountsContainer`. -/
def nilMountsFetched : Deployment :=
  { deploymentForRouter (setRouterDefaults noSecretRouter).1 with
    Spec := { (deploymentForRouter (setRouterDefaults noSecretRouter).1).Spec with
      Replicas := some 1,
      Template := { (deploymentForRouter (setRouterDefaults noSecretRouter).1).Spec.Template with
        Spec := { (deploymentForRouter (setRouterDefaults noSecretRouter).1).Spec.Template.Spec
          with Containers := some [nilMountsContainer] } } } }

/-- A store that accepts every call and answers the fetch of the deployment with
`nilMountsFetched`. -/
def nilMountsSdk : Sdk :=
  { echoSdk with GetDeployment := fun _ => Except.ok nilMountsFetched }

/-- The router `r1` whose stored status is the empty list of nodes, not the nil one. -/
def emptyNodesRouter : Router :=
  { Name := "r1", Spec := { Size := 3 }, Status := { Nodes := some [] } }

/-! ## Properties of `checkService` -/

set_option maxRecDepth 100000

/-- The flag returned by `checkService` is `false` whenever the function returns. -/
theorem checkService_flag (desired actual : Service) (r : Bool × Service)
    (h : checkService desired actual = some r) : r.1 = false := by
  unfold checkService at h
  dsimp only at h
  cases hA : (if (!(desired.Annotations.get certRequestAnnotation
        == actual.Annotations.get certRequestAnnotation)) = true then
      (actual.Annotations.set certRequestAnnotation
          (desired.Annotations.get certRequestAnnotation)).map
        (fun annotations => ({ actual with Annotations := annotations } : Service))
    else some actual) with
  | none => rw [hA] at h; cases h
  | some a => rw [hA] at h; cases h; rfl

/-- The service part of a pass issues no service update call, whatever the store holds. -/
theorem handleService_no_service_update (sdk : Sdk) (router : Router) (requestCert : Bool) :
    countServiceUpdates (handleService sdk router requestCert).calls = 0 := by
  unfold handleService Pass.andThen countServiceUpdates
  dsimp only
  repeat' split
  all_goals first
    | simp_all; done
    | (exfalso
       have hflag := checkService_flag _ _ _ (by assumption)
       simp_all)

/-- Calls of one kind in two parts in sequence, when neither part has any. -/
theorem countP_andThen_zero (p : Call → Bool) (a b : Pass)
    (ha : a.calls.countP p = 0) (hb : b.calls.countP p = 0) :
    (a.andThen b).calls.countP p = 0 := by
  unfold Pass.andThen
  cases a.result <;> simp [List.countP_append, ha, hb]

/-- The deployment part of a pass issues no service update call. -/
theorem handleDeployment_no_service_update (sdk : Sdk) (router : Router) :
    countServiceUpdates (handleDeployment sdk router).calls = 0 := by
  unfold handleDeployment updateDeployment Pass.andThen countServiceUpdates
  dsimp only
  repeat' split
  all_goals simp_all

/-- The status part of a pass issues no service update call. -/
theorem handleStatus_no_service_update (sdk : Sdk) (router : Router) :
    countServiceUpdates (handleStatus sdk router).calls = 0 := by
  unfold handleStatus Pass.andThen countServiceUpdates
  dsimp only
  repeat' split
  all_goals simp_all

/-- A pass of `Handle` issues no service update call, whatever the event and the store. -/
theorem Handle_no_service_update (sdk : Sdk) (event : Event) :
    countServiceUpdates (Handle sdk event).calls = 0 := by
  unfold Handle
  split
  · split
    · rfl
    · exact countP_andThen_zero _ _ _ (handleDeployment_no_service_update sdk _)
        (countP_andThen_zero _ _ _ (handleService_no_service_update sdk _ _)
          (handleStatus_no_service_update sdk _))
  · rfl

/-- C1, at a service whose stored port list differs from the desired one: the port
sequences differ, yet `checkService` returns `false` (after copying the desired ports into
the observed service), where the claim requires `true`, and the pass of `Handle` that
fetches this service ends without error after five store calls, none of them an update of
the service. -/
theorem checkService_port_drift_returns_false :
    driftDesired.Spec.Ports ≠ driftActual.Spec.Ports ∧
    checkService driftDesired driftActual =
      some (false, { driftActual with
        Spec := { driftActual.Spec with Ports := driftDesired.Spec.Ports } }) ∧
    serviceForRouter (setRouterDefaults driftRouter).1 (setRouterDefaults driftRouter).2 =
      driftDesired ∧
    (Handle driftSdk { Object := EventObject.router driftRouter, Deleted := false }).result =
      Outcome.ok ∧
    (Handle driftSdk { Object := EventObject.router driftRouter, Deleted := false }).calls.length =
      5 ∧
    countServiceUpdates
        (Handle driftSdk { Object := EventObject.router driftRouter, Deleted := false }).calls =
      0 := by
  exact ⟨by decide, by decide, by decide, by decide, by decide, Handle_no_service_update _ _⟩

/-- C2, at a router with a profile declared without credential name: after
`setRouterDefaults` the stored profile still has the empty credential name, where the
claim requires `r1-cert`; the returned flag is `true`. -/
theorem setRouterDefaults_keeps_empty_credentials :
    (setRouterDefaults emptyCredentialRouter).1.Spec.SslProfiles = [{ Name := "tls", Credentials := "" }] ∧
    (setRouterDefaults emptyCredentialRouter).2 = true := by
  decide

/-! ## Properties of `setRouterDefaults` -/

/-- The last loop of `setRouterDefaults` only computes a flag: it is `true` when it was
`true` before or some profile has an empty credential name. -/
theorem foldl_defaultCredentialsStep (name : String) (profiles : List SslProfile)
    (requestCert : Bool) :
    profiles.foldl (defaultCredentialsStep name) requestCert =
      (requestCert || profiles.any (fun p => decide (p.Credentials = ""))) := by
  induction profiles generalizing requestCert with
  | nil => simp
  | cons p ps ih =>
    rw [List.foldl_cons, ih]
    by_cases hp : p.Credentials = "" <;> simp [defaultCredentialsStep, hp]

/-- The profile named `default` is declared exactly when some declared profile has that
name. -/
theorem isDefaultSslProfileDefined_iff (m : Router) :
    isDefaultSslProfileDefined m = true ↔ ∃ p ∈ m.Spec.SslProfiles, p.Name = "default" := by
  simp [isDefaultSslProfileDefined]

/-- The profile named `default` is used exactly when some client-facing or inter-router
listener references it. -/
theorem isDefaultSslProfileUsed_iff (m : Router) :
    isDefaultSslProfileUsed m = true ↔
      ∃ l ∈ m.Spec.Listeners ++ m.Spec.InterRouterListeners, l.SslProfile = "default" := by
  unfold isDefaultSslProfileUsed
  simp only [List.mem_append, List.any_eq_true, beq_iff_eq]
  split_ifs with h1 h2
  · obtain ⟨l, hl, hd⟩ := h1
    exact ⟨fun _ => ⟨l, Or.inl hl, hd⟩, fun _ => rfl⟩
  · obtain ⟨l, hl, hd⟩ := h2
    exact ⟨fun _ => ⟨l, Or.inr hl, hd⟩, fun _ => rfl⟩
  · constructor
    · intro h; cases h
    · rintro ⟨l, hl | hl, hd⟩
      · exact absurd ⟨l, hl, hd⟩ h1
      · exact absurd ⟨l, hl, hd⟩ h2

/-- The credential name derived from a router name is never empty. -/
theorem certName_ne_empty (name : String) : name ++ "-cert" ≠ "" := by
  intro h
  have hlen := congrArg String.length h
  rw [String.length_append] at hlen
  have h5 : "-cert".length = 5 := by decide
  have h0 : "".length = 0 := by decide
  omega

/-- The result of `setRouterDefaults` in closed form: the three defaulted sequences and
the flag, every other field of the router being kept. -/
theorem setRouterDefaults_eq (m : Router) :
    setRouterDefaults m =
      ({ m with Spec := { m.Spec with
          Listeners :=
            if m.Spec.Listeners = [] then
              [{ Port := 5672 }, { Port := 5671, SslProfile := "default" },
               { Port := 8672, Http := true, SslProfile := "default" }]
            else m.Spec.Listeners,
          InterRouterListeners :=
            if m.Spec.InterRouterListeners = [] then [{ Port := 55672 }]
            else m.Spec.InterRouterListeners,
          SslProfiles :=
            if isDefaultSslProfileDefined m = false ∧
                (isDefaultSslProfileUsed m = true ∨ m.Spec.Listeners = []) then
              m.Spec.SslProfiles ++ [{ Name := "default", Credentials := m.Name ++ "-cert" }]
            else m.Spec.SslProfiles } },
       decide (isDefaultSslProfileDefined m = false ∧
                (isDefaultSslProfileUsed m = true ∨ m.Spec.Listeners = []))
         || m.Spec.SslProfiles.any (fun p => decide (p.Credentials = ""))) := by
  obtain ⟨tm, om, ⟨size, console, addrs, autos, routes, conns, irconns, ls, irls, profs⟩, st⟩ := m
  unfold setRouterDefaults
  simp only [foldl_defaultCredentialsStep]
  cases ls <;> cases irls <;>
    by_cases hd : profs.any (fun profile => profile.Name == "default") = true <;>
    simp [isDefaultSslProfileDefined, isDefaultSslProfileUsed, hd]
  all_goals (split_ifs <;> simp_all [certName_ne_empty, (by decide : ¬ ("" = "default"))])


/-- A defaulted router is a fixed point of `setRouterDefaults`. -/
theorem setRouterDefaults_fixed (m : Router) :
    (setRouterDefaults (setRouterDefaults m).1).1 = (setRouterDefaults m).1 := by
  rw [setRouterDefaults_eq (setRouterDefaults m).1, setRouterDefaults_eq m]
  obtain ⟨tm, om, ⟨size, console, addrs, autos, routes, conns, irconns, ls, irls, profs⟩, st⟩ := m
  cases ls <;> cases irls <;>
    by_cases hd : profs.any (fun profile => profile.Name == "default") = true <;>
    simp [isDefaultSslProfileDefined, isDefaultSslProfileUsed, hd]
  all_goals (split_ifs <;> simp_all [(by decide : ¬ ("" = "default"))])
  all_goals (intro h; exact absurd rfl (h _ (Or.inr rfl)))

/-- The stored profiles after `setRouterDefaults`: the declared ones, unchanged, followed by
the synthesized profile `default` when none of that name is declared and a listener of the
defaulted spec references it. -/
theorem setRouterDefaults_sslProfiles (m : Router) :
    (setRouterDefaults m).1.Spec.SslProfiles =
      if isDefaultSslProfileDefined m = false ∧
          (isDefaultSslProfileUsed m = true ∨ m.Spec.Listeners = []) then
        m.Spec.SslProfiles ++ [{ Name := "default", Credentials := m.Name ++ "-cert" }]
      else m.Spec.SslProfiles := by
  rw [setRouterDefaults_eq]

/-- The flag returned by `setRouterDefaults`. -/
theorem setRouterDefaults_flag (m : Router) :
    (setRouterDefaults m).2 =
      (decide (isDefaultSslProfileDefined m = false ∧
          (isDefaultSslProfileUsed m = true ∨ m.Spec.Listeners = []))
        || m.Spec.SslProfiles.any (fun p => decide (p.Credentials = ""))) := by
  rw [setRouterDefaults_eq]

/-- The name kept by `setRouterDefaults`. -/
theorem setRouterDefaults_name (m : Router) : (setRouterDefaults m).1.Name = m.Name := by
  rw [setRouterDefaults_eq]

/-- On a defaulted router no profile is appended again. -/
theorem setRouterDefaults_no_second_append (m : Router) :
    ¬ (isDefaultSslProfileDefined (setRouterDefaults m).1 = false ∧
        (isDefaultSslProfileUsed (setRouterDefaults m).1 = true ∨
          (setRouterDefaults m).1.Spec.Listeners = [])) := by
  intro hc
  have hp := setRouterDefaults_sslProfiles (setRouterDefaults m).1
  rw [if_pos hc, setRouterDefaults_fixed] at hp
  have hlen := congrArg List.length hp
  simp at hlen

/-- C4: a second application of `setRouterDefaults` to the router produced by a first one
leaves the router, and so its spec with the client-facing listeners, the inter-router
listeners, the SSL profiles and every other field, exactly as the first application left
it. -/
theorem setRouterDefaults_idempotent (m : Router) :
    (setRouterDefaults (setRouterDefaults m).1).1 = (setRouterDefaults m).1 ∧
    (setRouterDefaults (setRouterDefaults m).1).1.Spec = (setRouterDefaults m).1.Spec := by
  rw [setRouterDefaults_fixed]
  exact ⟨rfl, rfl⟩

/-- C5, as the code has it: when no declared SSL profile has an empty credential name, a
second application of `setRouterDefaults` returns `false`, while the first returns `true`
exactly when it appended the profile `default`. -/
theorem setRouterDefaults_second_flag (m : Router)
    (h : ∀ p ∈ m.Spec.SslProfiles, p.Credentials ≠ "") :
    (setRouterDefaults (setRouterDefaults m).1).2 = false ∧
    ((setRouterDefaults m).2 = true ↔
      (setRouterDefaults m).1.Spec.SslProfiles ≠ m.Spec.SslProfiles) := by
  have hany : m.Spec.SslProfiles.any (fun p => decide (p.Credentials = "")) = false := by
    rw [List.any_eq_false]
    intro p hp
    simpa using h p hp
  constructor
  · rw [setRouterDefaults_flag (setRouterDefaults m).1,
      decide_eq_false (setRouterDefaults_no_second_append m), Bool.false_or,
      setRouterDefaults_sslProfiles m]
    split_ifs
    · rw [List.any_append, hany]
      simp [certName_ne_empty]
    · exact hany
  · rw [setRouterDefaults_flag m, setRouterDefaults_sslProfiles m, hany, Bool.or_false]
    split_ifs with hc
    · simp [hc]
    · simp [hc]

/-- C6: when no client-facing and no inter-router listener is declared, the defaulted spec
has the three client-facing listeners on 5672, 5671 and 8672, the last two referencing
profile `default`, the last one being the HTTP one, and the single inter-router listener on
55672 without profile. -/
theorem setRouterDefaults_default_listeners (m : Router)
    (hl : m.Spec.Listeners = []) (hi : m.Spec.InterRouterListeners = []) :
    (setRouterDefaults m).1.Spec.Listeners =
      [{ Port := 5672 }, { Port := 5671, SslProfile := "default" },
       { Port := 8672, Http := true, SslProfile := "default" }] ∧
    (setRouterDefaults m).1.Spec.Listeners.map (fun l => l.Port) = [5672, 5671, 8672] ∧
    (setRouterDefaults m).1.Spec.Listeners.map (fun l => l.SslProfile) =
      ["", "default", "default"] ∧
    (setRouterDefaults m).1.Spec.Listeners.map (fun l => l.Http) = [false, false, true] ∧
    (setRouterDefaults m).1.Spec.InterRouterListeners = [{ Port := 55672 }] ∧
    (setRouterDefaults m).1.Spec.InterRouterListeners.map (fun l => l.Port) = [55672] ∧
    (setRouterDefaults m).1.Spec.InterRouterListeners.map (fun l => l.SslProfile) = [""] := by
  rw [setRouterDefaults_eq]
  simp [hl, hi]

/-- C7, as the code has it: when no profile named `default` is declared and a declared
listener references it, or no client-facing listener is declared (the installed ones
reference it), `setRouterDefaults` returns `true` and the stored profiles are the declared
ones followed by one profile `default` with credential name `<router name>-cert`; when a
profile `default` is declared, or client-facing listeners are declared and no listener
references it, or no listener of the defaulted spec references it, the stored profiles are
the declared ones. -/
theorem setRouterDefaults_default_profile (m : Router) :
    ((∀ p ∈ m.Spec.SslProfiles, p.Name ≠ "default") →
      ((∃ l ∈ m.Spec.Listeners ++ m.Spec.InterRouterListeners, l.SslProfile = "default") ∨
        m.Spec.Listeners = []) →
      (setRouterDefaults m).2 = true ∧
      (setRouterDefaults m).1.Spec.SslProfiles =
        m.Spec.SslProfiles ++ [{ Name := "default", Credentials := m.Name ++ "-cert" }]) ∧
    (((∃ p ∈ m.Spec.SslProfiles, p.Name = "default") ∨
        (m.Spec.Listeners ≠ [] ∧
          ∀ l ∈ m.Spec.Listeners ++ m.Spec.InterRouterListeners, l.SslProfile ≠ "default")) →
      (setRouterDefaults m).1.Spec.SslProfiles = m.Spec.SslProfiles) ∧
    ((∀ l ∈ (setRouterDefaults m).1.Spec.Listeners ++
          (setRouterDefaults m).1.Spec.InterRouterListeners, l.SslProfile ≠ "default") →
      (setRouterDefaults m).1.Spec.SslProfiles = m.Spec.SslProfiles) := by
  refine ⟨?_, ?_, ?_⟩
  · intro hnone hused
    have hdef : isDefaultSslProfileDefined m = false := by
      rw [← Bool.not_eq_true, isDefaultSslProfileDefined_iff]
      rintro ⟨p, hp, hn⟩
      exact hnone p hp hn
    have hc : isDefaultSslProfileDefined m = false ∧
        (isDefaultSslProfileUsed m = true ∨ m.Spec.Listeners = []) :=
      ⟨hdef, hused.imp (isDefaultSslProfileUsed_iff m).mpr id⟩
    rw [setRouterDefaults_flag, setRouterDefaults_sslProfiles, if_pos hc, decide_eq_true hc]
    exact ⟨rfl, rfl⟩
  · intro h
    rw [setRouterDefaults_sslProfiles, if_neg]
    rintro ⟨hdef, hused⟩
    rcases h with hex | ⟨hne, hno⟩
    · rw [(isDefaultSslProfileDefined_iff m).mpr hex] at hdef
      cases hdef
    · rcases hused with hu | hl
      · obtain ⟨l, hl, hd⟩ := (isDefaultSslProfileUsed_iff m).mp hu
        exact hno l hl hd
      · exact hne hl
  · intro hno
    rw [setRouterDefaults_sslProfiles, if_neg]
    rintro ⟨_, hused⟩
    rw [setRouterDefaults_eq] at hno
    rcases hused with hu | hl
    · obtain ⟨l, hl, hd⟩ := (isDefaultSslProfileUsed_iff m).mp hu
      refine hno l ?_ hd
      rcases List.mem_append.mp hl with h | h
      · have hne : m.Spec.Listeners ≠ [] := List.ne_nil_of_mem h
        simp [hne, h]
      · have hne : m.Spec.InterRouterListeners ≠ [] := List.ne_nil_of_mem h
        simp [hne, h]
    · exact hno { Port := 5671, SslProfile := "default" } (by simp [hl]) rfl

/-- C5 as stated fails on a router that declares nothing: the first application returns
`true`, having appended the profile `default`, and the second returns `false`. -/
theorem setRouterDefaults_flag_not_repeated :
    (setRouterDefaults (setRouterDefaults bareRouter).1).2 ≠ (setRouterDefaults bareRouter).2 := by
  decide

/-- The statement of C5 as amended, on the router that declares nothing. -/
theorem setRouterDefaults_second_flag_witness :
    (setRouterDefaults (setRouterDefaults bareRouter).1).2 = false ∧
    ((setRouterDefaults bareRouter).2 = true ↔
      (setRouterDefaults bareRouter).1.Spec.SslProfiles ≠ bareRouter.Spec.SslProfiles) :=
  setRouterDefaults_second_flag bareRouter (by decide)

/-- The statement of C6 on a router of size 2 that declares no listener. -/
theorem setRouterDefaults_default_listeners_witness :
    (setRouterDefaults meshRouter).1.Spec.Listeners.map (fun l => l.Port) = [5672, 5671, 8672] ∧
    (setRouterDefaults meshRouter).1.Spec.InterRouterListeners.map (fun l => l.Port) = [55672] :=
  have h := setRouterDefaults_default_listeners meshRouter (by decide) (by decide)
  ⟨h.2.1, h.2.2.2.2.2.1⟩

/-- C7 as stated fails on a router that declares one inter-router listener and no
client-facing one: no declared listener references profile `default`, yet a profile is
appended, because the installed client-facing listeners reference it. -/
theorem setRouterDefaults_appends_without_declared_use :
    (∀ l ∈ onlyInterRouter.Spec.Listeners ++ onlyInterRouter.Spec.InterRouterListeners,
      l.SslProfile ≠ "default") ∧
    (setRouterDefaults onlyInterRouter).1.Spec.SslProfiles ≠ onlyInterRouter.Spec.SslProfiles := by
  decide

/-- The statement of C7 as amended, on a router with a listener referencing `default`. -/
theorem setRouterDefaults_default_profile_witness :
    (setRouterDefaults tlsRouter).2 = true ∧
    (setRouterDefaults tlsRouter).1.Spec.SslProfiles =
      [{ Name := "internal", Credentials := "internal-secret" },
       { Name := "default", Credentials := "r3-cert" }] :=
  (setRouterDefaults_default_profile tlsRouter).1 (by decide) (by decide)

/-- C8 as stated fails: after `setRouterDefaults` the router `r1` has one SSL profile, and
the compiled document one `sslProfile` block. -/
theorem r1_has_ssl_profile :
    (setRouterDefaults r1).1.Spec.SslProfiles ≠ [] ∧
    countBlocks "sslProfile" (configForRouter (setRouterDefaults r1).1) ≠ 0 := by
  decide

/-- C8, as the code has it: after `setRouterDefaults` the router `r1` of size 3 has 3
client-facing listeners, 1 inter-router listener and the one SSL profile `default` with
credential name `r1-cert`, and the document compiled by `configForRouter` has 4 listener
blocks and 1 `sslProfile` block. -/
theorem r1_defaulted_and_compiled :
    (setRouterDefaults r1).1.Spec.Listeners.length = 3 ∧
    (setRouterDefaults r1).1.Spec.InterRouterListeners.length = 1 ∧
    (setRouterDefaults r1).1.Spec.SslProfiles = [{ Name := "default", Credentials := "r1-cert" }] ∧
    countBlocks "listener" (configForRouter (setRouterDefaults r1).1) = 4 ∧
    countBlocks "sslProfile" (configForRouter (setRouterDefaults r1).1) = 1 := by
  decide

/-! ## Properties of the synthesized ports and volumes -/

/-- A loop that appends one element per item to a slice that is not nil. -/
theorem foldl_goAppend_singleton {α β : Type} (f : α → β) (l : List α) (acc : List β) :
    l.foldl (fun s x => goAppend s [f x]) (some acc) = some (acc ++ l.map f) := by
  induction l generalizing acc with
  | nil => simp
  | cons x xs ih =>
    rw [List.foldl_cons]
    show List.foldl (fun s x => goAppend s [f x]) (some (acc ++ [f x])) xs = _
    rw [ih]
    simp

/-- The container ports of a listener sequence, one per listener in order. -/
theorem containerPortsForListeners_eq (listeners : List Listener) :
    containerPortsForListeners listeners =
      some (listeners.map fun l => { Name := nameForListener l, ContainerPort := l.Port }) := by
  unfold containerPortsForListeners
  exact (foldl_goAppend_singleton _ listeners []).trans (by simp)

/-- The service ports of a listener sequence, one per listener in order. -/
theorem servicePortsForListeners_eq (listeners : List Listener) :
    servicePortsForListeners listeners =
      some (listeners.map fun l =>
        { Name := nameForListener l, Protocol := "TCP", Port := l.Port,
          TargetPort := IntOrString.int l.Port }) := by
  unfold servicePortsForListeners
  exact (foldl_goAppend_singleton _ listeners []).trans (by simp)

/-- C9: `containerPortsForRouter` yields one port per listener, the client-facing ones
first and the inter-router ones after them, each group in declaration order, with the
listener's port number and the name of `nameForListener`; `portsForRouter` yields service
ports with the same names and numbers in the same order, protocol TCP and the port number
as target; `nameForListener` is the listener's name when it has one and `port-` followed
by the decimal port number otherwise. -/
theorem ports_follow_listeners (m : Router) :
    containerPortsForRouter m =
      some ((m.Spec.Listeners ++ m.Spec.InterRouterListeners).map fun l =>
        { Name := nameForListener l, ContainerPort := l.Port }) ∧
    portsForRouter m =
      some ((m.Spec.Listeners ++ m.Spec.InterRouterListeners).map fun l =>
        { Name := nameForListener l, Protocol := "TCP", Port := l.Port,
          TargetPort := IntOrString.int l.Port }) ∧
    (∀ l : Listener, l.Name ≠ "" → nameForListener l = l.Name) ∧
    (∀ l : Listener, l.Name = "" → nameForListener l = "port-" ++ itoa l.Port) ∧
    (∀ n : Nat, itoa (Int.ofNat n) = Nat.repr n) ∧
    nameForListener { Port := 5672 } = "port-5672" := by
  refine ⟨?_, ?_, ?_, ?_, ?_, ?_⟩
  · unfold containerPortsForRouter
    simp [containerPortsForListeners_eq, goAppend]
  · unfold portsForRouter
    simp [servicePortsForListeners_eq, goAppend]
  · intro l hl
    simp [nameForListener, hl]
  · intro l hl
    simp [nameForListener, hl]
  · intro n
    rfl
  · decide

/-- A string has positive length exactly when it is not the empty string. -/
theorem length_pos_iff_ne_empty (s : String) : s.length > 0 ↔ s ≠ "" := by
  constructor
  · intro h he
    rw [he] at h
    exact absurd h (by decide)
  · intro h
    rcases Nat.eq_zero_or_pos s.length with h0 | hpos
    · exact absurd (String.ext (List.length_eq_zero.mp h0)) h
    · exact hpos

/-- One iteration of the volume loop appends the volumes of the profile's secret names. -/
theorem volumesStep_eq (acc : List Volume) (p : SslProfile) :
    volumesStep (some acc) p =
      some (acc ++ (profileSecretNames p).map fun n =>
        { Name := n, VolumeSource := { Secret := some { SecretName := n } } }) := by
  unfold volumesStep profileSecretNames
  simp only [length_pos_iff_ne_empty]
  by_cases hc : p.Credentials ≠ "" <;> by_cases ha : p.CaCert ≠ "" ∧ p.CaCert ≠ p.Credentials <;>
    simp [hc, ha, goAppend]

/-- The volume loop of `deploymentForRouter` in closed form. -/
theorem foldl_volumesStep (profiles : List SslProfile) (acc : List Volume) :
    profiles.foldl volumesStep (some acc) =
      some (acc ++ (profiles.flatMap profileSecretNames).map fun n =>
        { Name := n, VolumeSource := { Secret := some { SecretName := n } } }) := by
  induction profiles generalizing acc with
  | nil => simp
  | cons p ps ih =>
    rw [List.foldl_cons, volumesStep_eq, ih]
    simp

/-- The pod volumes of the desired deployment. -/
theorem deploymentForRouter_volumes (m : Router) :
    (deploymentForRouter m).Spec.Template.Spec.Volumes =
      some ((m.Spec.SslProfiles.flatMap profileSecretNames).map fun n =>
        { Name := n, VolumeSource := { Secret := some { SecretName := n } } }) := by
  unfold deploymentForRouter
  simp only [foldl_volumesStep, List.nil_append]
  split_ifs <;> rfl

/-- The names of the pod volumes of the desired deployment, profile by profile. -/
theorem podVolumeNames_deploymentForRouter (m : Router) :
    podVolumeNames (deploymentForRouter m) = m.Spec.SslProfiles.flatMap profileSecretNames := by
  unfold podVolumeNames
  rw [deploymentForRouter_volumes]
  simp [Function.comp_def]

/-- The secret names of one profile are its non-empty credential and CA-cert names. -/
theorem mem_profileSecretNames (p : SslProfile) (n : String) :
    n ∈ profileSecretNames p ↔ n ≠ "" ∧ (p.Credentials = n ∨ p.CaCert = n) := by
  unfold profileSecretNames
  by_cases hc : p.Credentials ≠ "" <;> by_cases ha : p.CaCert ≠ "" ∧ p.CaCert ≠ p.Credentials <;>
    simp [hc, ha]
  all_goals aesop

/-- The secret names of one profile are pairwise different. -/
theorem nodup_profileSecretNames (p : SslProfile) : (profileSecretNames p).Nodup := by
  unfold profileSecretNames
  by_cases hc : p.Credentials ≠ "" <;> by_cases ha : p.CaCert ≠ "" ∧ p.CaCert ≠ p.Credentials <;>
    simp [hc, ha]
  exact fun h => ha.2 h.symm

/-- Two profiles contribute disjoint secret names exactly when no non-empty credential or
CA-cert name of the first is a credential or CA-cert name of the second. -/
theorem disjoint_profileSecretNames (p q : SslProfile) :
    List.Disjoint (profileSecretNames p) (profileSecretNames q) ↔
      ((p.Credentials ≠ "" → p.Credentials ≠ q.Credentials ∧ p.Credentials ≠ q.CaCert) ∧
       (p.CaCert ≠ "" → p.CaCert ≠ q.Credentials ∧ p.CaCert ≠ q.CaCert)) := by
  constructor
  · intro h
    constructor
    · intro hc
      have hp : p.Credentials ∈ profileSecretNames p :=
        (mem_profileSecretNames p _).mpr ⟨hc, Or.inl rfl⟩
      constructor
      · intro he
        exact h hp ((mem_profileSecretNames q _).mpr ⟨hc, Or.inl he.symm⟩)
      · intro he
        exact h hp ((mem_profileSecretNames q _).mpr ⟨hc, Or.inr he.symm⟩)
    · intro hc
      have hp : p.CaCert ∈ profileSecretNames p :=
        (mem_profileSecretNames p _).mpr ⟨hc, Or.inr rfl⟩
      constructor
      · intro he
        exact h hp ((mem_profileSecretNames q _).mpr ⟨hc, Or.inl he.symm⟩)
      · intro he
        exact h hp ((mem_profileSecretNames q _).mpr ⟨hc, Or.inr he.symm⟩)
  · rintro ⟨h1, h2⟩ n hp hq
    obtain ⟨hn, hpn⟩ := (mem_profileSecretNames p n).mp hp
    obtain ⟨_, hqn⟩ := (mem_profileSecretNames q n).mp hq
    rcases hpn with hpn | hpn
    · have h := h1 (by rw [hpn]; exact hn)
      rcases hqn with hqn | hqn
      · exact h.1 (hpn.trans hqn.symm)
      · exact h.2 (hpn.trans hqn.symm)
    · have h := h2 (by rw [hpn]; exact hn)
      rcases hqn with hqn | hqn
      · exact h.1 (hpn.trans hqn.symm)
      · exact h.2 (hpn.trans hqn.symm)

/-- C3 as stated fails on a router whose two profiles reference the same secret: the pod
volume list holds two volumes of that name. -/
theorem shared_secret_volume_twice :
    podVolumeNames (deploymentForRouter sharedSecretRouter) = ["tls", "tls"] ∧
    ¬ (podVolumeNames (deploymentForRouter sharedSecretRouter)).Nodup := by
  decide

/-- C3, as the code has it: the pod volume list of `deploymentForRouter` holds, profile by
profile in declaration order, a secret volume for the profile's non-empty credential name
and one for its non-empty CA-cert name when that differs from the credential name; the
volume names are exactly the non-empty secret names some profile references; and no two
volumes have the same name exactly when no secret name is referenced by two different
profiles. -/
theorem deploymentForRouter_volume_names (m : Router) :
    (deploymentForRouter m).Spec.Template.Spec.Volumes =
      some ((m.Spec.SslProfiles.flatMap profileSecretNames).map fun n =>
        { Name := n, VolumeSource := { Secret := some { SecretName := n } } }) ∧
    (∀ n, n ∈ podVolumeNames (deploymentForRouter m) ↔
      n ≠ "" ∧ ∃ p ∈ m.Spec.SslProfiles, p.Credentials = n ∨ p.CaCert = n) ∧
    ((podVolumeNames (deploymentForRouter m)).Nodup ↔
      m.Spec.SslProfiles.Pairwise fun p q =>
        (p.Credentials ≠ "" → p.Credentials ≠ q.Credentials ∧ p.Credentials ≠ q.CaCert) ∧
        (p.CaCert ≠ "" → p.CaCert ≠ q.Credentials ∧ p.CaCert ≠ q.CaCert)) := by
  refine ⟨deploymentForRouter_volumes m, ?_, ?_⟩
  · intro n
    rw [podVolumeNames_deploymentForRouter, List.mem_flatMap]
    constructor
    · rintro ⟨p, hp, hn⟩
      obtain ⟨hne, hpn⟩ := (mem_profileSecretNames p n).mp hn
      exact ⟨hne, p, hp, hpn⟩
    · rintro ⟨hne, p, hp, hpn⟩
      exact ⟨p, hp, (mem_profileSecretNames p n).mpr ⟨hne, hpn⟩⟩
  · rw [podVolumeNames_deploymentForRouter, List.nodup_flatMap]
    constructor
    · rintro ⟨_, hpw⟩
      exact hpw.imp fun {p q} h => (disjoint_profileSecretNames p q).mp h
    · intro hpw
      exact ⟨fun p _ => nodup_profileSecretNames p,
        hpw.imp fun {p q} h => (disjoint_profileSecretNames p q).mpr h⟩

/-- The statement of C3 as amended, on a router whose profiles reference three different
secrets: three volumes, no name twice. -/
theorem deploymentForRouter_volume_names_witness :
    podVolumeNames (deploymentForRouter distinctSecretsRouter) = ["tls-a", "ca", "tls-b"] ∧
    (podVolumeNames (deploymentForRouter distinctSecretsRouter)).Nodup :=
  ⟨by decide, (deploymentForRouter_volume_names distinctSecretsRouter).2.2.mpr (by decide)⟩

/-! ## Properties of the deployment convergence -/

/-- The comparison `checkContainer` holds exactly when the environment, port and
volume-mount lists are equal. -/
theorem checkContainer_iff (desired actual : Container) :
    checkContainer desired actual = true ↔
      desired.Env = actual.Env ∧ desired.Ports = actual.Ports ∧
        desired.VolumeMounts = actual.VolumeMounts := by
  unfold checkContainer
  by_cases he : desired.Env = actual.Env <;> by_cases hp : desired.Ports = actual.Ports <;>
    by_cases hv : desired.VolumeMounts = actual.VolumeMounts <;> simp [he, hp, hv]

/-- The update part of `Handle` issues no deployment update call when the fetched
container matches and the replica count needs no change, and one otherwise. -/
theorem updateDeployment_count (sdk : Sdk) (router : Router) (container actual : Container)
    (dep : Deployment)
    (hc : dep.Spec.Template.Spec.Containers = some [actual])
    (hr : router.Spec.Size ≠ 0 → ∃ replicas, dep.Spec.Replicas = some replicas) :
    countDeploymentUpdates (updateDeployment sdk router container dep).calls =
      if checkContainer container actual = true ∧
          (router.Spec.Size = 0 ∨ dep.Spec.Replicas = some router.Spec.Size) then 0
      else 1 := by
  unfold updateDeployment
  by_cases hs : router.Spec.Size = 0
  · by_cases hk : checkContainer container actual = true
    · simp [hs, hc, hk, countDeploymentUpdates]
    · simp only [Bool.not_eq_true] at hk
      simp [hs, hc, hk, countDeploymentUpdates]
      split <;> simp
  · obtain ⟨replicas, hrep⟩ := hr hs
    by_cases hk : checkContainer container actual = true <;>
      by_cases hq : replicas = router.Spec.Size
    · simp [hs, hc, hk, hrep, hq, countDeploymentUpdates]
    · simp [hs, hc, hk, hrep, hq, countDeploymentUpdates]
      split <;> simp
    · simp only [Bool.not_eq_true] at hk
      simp [hs, hc, hk, hrep, hq, countDeploymentUpdates]
      split <;> simp
    · simp only [Bool.not_eq_true] at hk
      simp [hs, hc, hk, hrep, hq, countDeploymentUpdates]
      split <;> simp

/-- Deployment update calls of two parts in sequence, when the second part has none. -/
theorem countDeploymentUpdates_andThen (a b : Pass)
    (hb : countDeploymentUpdates b.calls = 0) :
    countDeploymentUpdates (a.andThen b).calls = countDeploymentUpdates a.calls := by
  unfold Pass.andThen
  unfold countDeploymentUpdates at *
  cases a.result <;> simp [List.countP_append, hb]

/-- The service part of a pass issues no deployment update call. -/
theorem handleService_no_deployment_update (sdk : Sdk) (router : Router) (requestCert : Bool) :
    countDeploymentUpdates (handleService sdk router requestCert).calls = 0 := by
  unfold handleService Pass.andThen countDeploymentUpdates
  dsimp only
  repeat' split
  all_goals simp_all

/-- The status part of a pass issues no deployment update call. -/
theorem handleStatus_no_deployment_update (sdk : Sdk) (router : Router) :
    countDeploymentUpdates (handleStatus sdk router).calls = 0 := by
  unfold handleStatus Pass.andThen countDeploymentUpdates
  dsimp only
  repeat' split
  all_goals simp_all

/-- The deployment part of a pass whose create call succeeds or finds the deployment and
whose fetch succeeds: the create call, the fetch call, then the update part on the fetched
deployment. -/
theorem handleDeployment_calls (sdk : Sdk) (router : Router) (dep : Deployment)
    (hcreate : ∀ err, (sdk.CreateDeployment (deploymentForRouter router)).2 = some err →
      IsAlreadyExists err = true)
    (hget : sdk.GetDeployment (sdk.CreateDeployment (deploymentForRouter router)).1 =
      Except.ok dep) :
    (handleDeployment sdk router).calls =
      [Call.createDeployment (deploymentForRouter router),
       Call.getDeployment (sdk.CreateDeployment (deploymentForRouter router)).1] ++
      (updateDeployment sdk router
        (containerForRouter router (configForRouter router)) dep).calls := by
  unfold handleDeployment
  simp only [hget]
  cases hres : (sdk.CreateDeployment (deploymentForRouter router)).2 with
  | none => simp [Pass.andThen]
  | some err => simp [Pass.andThen, hcreate err hres]

/-- C10, as the code has it: `checkContainer` holds exactly when the environment, port and
volume-mount lists are equal as `reflect.DeepEqual` compares them, order-sensitive and a
nil list differing from an empty one, whatever the images; on a fetched deployment with
exactly one container, and a replica count when `Size` is not 0, the update part of
`Handle` issues, for every desired container, no update call when the three lists are so
equal and `Size` is 0 or the fetched replica count, and one update call otherwise; and a
pass of `Handle` whose create and fetch calls succeed issues that many deployment update
calls for its desired container. -/
theorem Handle_deployment_updates (sdk : Sdk) (o : Router) (actual : Container)
    (dep : Deployment)
    (hcreate : ∀ err,
      (sdk.CreateDeployment (deploymentForRouter (setRouterDefaults o).1)).2 = some err →
        IsAlreadyExists err = true)
    (hget : sdk.GetDeployment (sdk.CreateDeployment
      (deploymentForRouter (setRouterDefaults o).1)).1 = Except.ok dep)
    (hc : dep.Spec.Template.Spec.Containers = some [actual])
    (hr : o.Spec.Size ≠ 0 → ∃ replicas, dep.Spec.Replicas = some replicas) :
    (∀ desired observed : Container,
      checkContainer desired observed = true ↔
        desired.Env = observed.Env ∧ desired.Ports = observed.Ports ∧
          desired.VolumeMounts = observed.VolumeMounts) ∧
    (∀ (desired observed : Container) (image : String),
      checkContainer desired { observed with Image := image } =
        checkContainer desired observed) ∧
    (∀ desired observed : Container,
      desired.VolumeMounts = some [] → observed.VolumeMounts = none →
        checkContainer desired observed = false) ∧
    (∀ container : Container,
      countDeploymentUpdates
          (updateDeployment sdk (setRouterDefaults o).1 container dep).calls =
        if (container.Env = actual.Env ∧ container.Ports = actual.Ports ∧
              container.VolumeMounts = actual.VolumeMounts) ∧
            (o.Spec.Size = 0 ∨ dep.Spec.Replicas = some o.Spec.Size) then 0
        else 1) ∧
    countDeploymentUpdates
        (Handle sdk { Object := EventObject.router o, Deleted := false }).calls =
      if ((containerForRouter (setRouterDefaults o).1
              (configForRouter (setRouterDefaults o).1)).Env = actual.Env ∧
            (containerForRouter (setRouterDefaults o).1
              (configForRouter (setRouterDefaults o).1)).Ports = actual.Ports ∧
            (containerForRouter (setRouterDefaults o).1
              (configForRouter (setRouterDefaults o).1)).VolumeMounts = actual.VolumeMounts) ∧
          (o.Spec.Size = 0 ∨ dep.Spec.Replicas = some o.Spec.Size) then 0
      else 1 := by
  have hsize : (setRouterDefaults o).1.Spec.Size = o.Spec.Size := by
    rw [setRouterDefaults_eq]
  have hupd : ∀ container : Container,
      countDeploymentUpdates
          (updateDeployment sdk (setRouterDefaults o).1 container dep).calls =
        if (container.Env = actual.Env ∧ container.Ports = actual.Ports ∧
              container.VolumeMounts = actual.VolumeMounts) ∧
            (o.Spec.Size = 0 ∨ dep.Spec.Replicas = some o.Spec.Size) then 0
        else 1 := by
    intro container
    rw [updateDeployment_count sdk (setRouterDefaults o).1 container actual dep hc
      (by rw [hsize]; exact hr), hsize]
    exact if_congr (and_congr (checkContainer_iff container actual) Iff.rfl) rfl rfl
  refine ⟨checkContainer_iff, ?_, ?_, hupd, ?_⟩
  · intro desired observed image
    rfl
  · intro desired observed hd ho
    cases hck : checkContainer desired observed with
    | false => rfl
    | true =>
      have hm := ((checkContainer_iff desired observed).mp hck).2.2
      rw [hd, ho] at hm
      cases hm
  · have hH : Handle sdk { Object := EventObject.router o, Deleted := false } =
        (handleDeployment sdk (setRouterDefaults o).1).andThen
          ((handleService sdk (setRouterDefaults o).1 (setRouterDefaults o).2).andThen
            (handleStatus sdk (setRouterDefaults o).1)) := by
      simp [Handle]
    rw [hH, countDeploymentUpdates_andThen, handleDeployment_calls sdk _ dep hcreate hget]
    · rw [← hupd]
      simp [countDeploymentUpdates, List.countP_cons]
    · rw [countDeploymentUpdates_andThen _ _ (handleStatus_no_deployment_update sdk _)]
      exact handleService_no_deployment_update sdk _ _

/-- The statement of C10 on the router `r1` and a store that holds the desired deployment:
the pass issues no deployment update call. -/
theorem Handle_deployment_updates_witness :
    countDeploymentUpdates
        (Handle echoSdk { Object := EventObject.router r1, Deleted := false }).calls = 0 :=
  ((Handle_deployment_updates echoSdk r1
      (containerForRouter (setRouterDefaults r1).1 (configForRouter (setRouterDefaults r1).1))
      (deploymentForRouter (setRouterDefaults r1).1)
      (fun err h => absurd (show (none : Option SdkError) = some err from h) (by simp)) rfl rfl (fun _ => ⟨3, rfl⟩)).2.2.2.2).trans
    (if_pos ⟨⟨rfl, rfl, rfl⟩, Or.inr rfl⟩)

/-! ## Properties of the desired deployment and service -/

/-- C12: the desired deployment carries the replica count `Spec.Size` when `Size` is not 0
and no replica count when it is 0; for the router `r1` of size 3 the count is 3, before
and after defaulting. -/
theorem deploymentForRouter_replicas (m : Router) :
    (deploymentForRouter m).Spec.Replicas =
      (if m.Spec.Size ≠ 0 then some m.Spec.Size else none) ∧
    (deploymentForRouter r1).Spec.Replicas = some 3 ∧
    (deploymentForRouter (setRouterDefaults r1).1).Spec.Replicas = some 3 := by
  refine ⟨?_, by decide, by decide⟩
  unfold deploymentForRouter
  by_cases h : m.Spec.Size = 0 <;> simp [h, addOwnerRefToObject]

/-- C13: the desired service carries the annotation
`service.alpha.openshift.io/serving-cert-secret-name` with value `<router name>-cert`, and
no other annotation, when `requestCert` is true, and has no annotation map at all when it
is false. -/
theorem serviceForRouter_annotations (m : Router) :
    certRequestAnnotation = "service.alpha.openshift.io/serving-cert-secret-name" ∧
    (serviceForRouter m true).Annotations =
      some [( certRequestAnnotation, m.Name ++ "-cert")] ∧
    (serviceForRouter m true).Annotations.get certRequestAnnotation = m.Name ++ "-cert" ∧
    (serviceForRouter m false).Annotations = none ∧
    (∀ k, (serviceForRouter m false).Annotations.has k = false) := by
  refine ⟨rfl, rfl, ?_, rfl, fun k => rfl⟩
  show GoMap.get (some [( certRequestAnnotation, m.Name ++ "-cert")]) certRequestAnnotation = _
  simp [GoMap.get, List.lookup]

/-- C14: `labelsForRouter` returns the map with the two entries `application` and
`router_cr`, both bound to the name; the selector of the desired service, the match-labels
of the desired deployment's selector and the labels of its pod template are this map, and
so is the label set of the list call of the status part. -/
theorem labelsForRouter_everywhere (m : Router) (requestCert : Bool) (sdk : Sdk) :
    labelsForRouter m.Name = some [("application", m.Name), ("router_cr", m.Name)] ∧
    (∀ k, (labelsForRouter m.Name).has k = true ↔ k = "application" ∨ k = "router_cr") ∧
    (labelsForRouter m.Name).get "application" = m.Name ∧
    (labelsForRouter m.Name).get "router_cr" = m.Name ∧
    (serviceForRouter m requestCert).Spec.Selector = labelsForRouter m.Name ∧
    (deploymentForRouter m).Spec.Selector = some { MatchLabels := labelsForRouter m.Name } ∧
    (deploymentForRouter m).Spec.Template.Labels = labelsForRouter m.Name ∧
    (handleStatus sdk m).calls.head? = some (Call.listPods m.Namespace (labelsForRouter m.Name)) := by
  refine ⟨rfl, ?_, ?_, ?_, ?_, ?_, ?_, ?_⟩
  · intro k
    simp only [labelsForRouter, GoMap.has, List.lookup]
    by_cases h1 : k = "application"
    · simp [h1]
    · by_cases h2 : k = "router_cr"
      · simp [h2]
      · simp [h1, h2, List.lookup, beq_eq_false_iff_ne.mpr h1, beq_eq_false_iff_ne.mpr h2]
  · simp [labelsForRouter, GoMap.get, List.lookup]
  · simp [labelsForRouter, GoMap.get, List.lookup]
  · unfold serviceForRouter
    cases requestCert <;> rfl
  · unfold deploymentForRouter
    by_cases h : m.Spec.Size = 0 <;> simp [h, addOwnerRefToObject]
  · unfold deploymentForRouter
    by_cases h : m.Spec.Size = 0 <;> simp [h, addOwnerRefToObject]
  · unfold handleStatus
    dsimp only
    split <;> simp [Pass.andThen]

/-- One iteration of the mount loop appends the mounts of the profile's secret names. -/
theorem volumeMountsStep_eq (acc : List VolumeMount) (p : SslProfile) :
    volumeMountsStep (some acc) p =
      some (acc ++ (profileSecretNames p).map fun n =>
        { Name := n, MountPath := "/etc/qpid-dispatch-certs/" ++ p.Name ++ "/" ++ n }) := by
  unfold volumeMountsStep profileSecretNames
  simp only [length_pos_iff_ne_empty]
  by_cases hc : p.Credentials ≠ "" <;> by_cases ha : p.CaCert ≠ "" ∧ p.CaCert ≠ p.Credentials <;>
    simp [hc, ha, goAppend]

/-- The mount loop of `containerForRouter` in closed form. -/
theorem foldl_volumeMountsStep (profiles : List SslProfile) (acc : List VolumeMount) :
    profiles.foldl volumeMountsStep (some acc) =
      some (acc ++ profiles.flatMap fun p => (profileSecretNames p).map fun n =>
        { Name := n, MountPath := "/etc/qpid-dispatch-certs/" ++ p.Name ++ "/" ++ n }) := by
  induction profiles generalizing acc with
  | nil => simp
  | cons p ps ih =>
    rw [List.foldl_cons, volumeMountsStep_eq, ih]
    simp

/-- The names of the volume mounts of the desired container, profile by profile. -/
theorem volumeMountNames_containerForRouter (m : Router) (config : String) :
    volumeMountNames (containerForRouter m config) =
      m.Spec.SslProfiles.flatMap profileSecretNames := by
  unfold volumeMountNames containerForRouter
  by_cases h : m.Spec.SslProfiles.length > 0
  · simp only [h, if_true, foldl_volumeMountsStep, List.nil_append, Option.getD_some]
    simp [List.map_flatMap, Function.comp_def]
  · have hnil : m.Spec.SslProfiles = [] := by
      cases hp : m.Spec.SslProfiles with
      | nil => rfl
      | cons p ps => rw [hp] at h; simp at h
    simp [hnil]

/-- The containers of the desired deployment: the container of `containerForRouter` on the
compiled configuration. -/
theorem deploymentForRouter_containers (m : Router) :
    (deploymentForRouter m).Spec.Template.Spec.Containers =
      some [containerForRouter m (configForRouter m)] := by
  unfold deploymentForRouter
  by_cases h : m.Spec.Size = 0 <;> simp [h, addOwnerRefToObject]

/-- C20: the names of the pod volumes of the desired deployment are, in order, the names
of the volume mounts of the desired container, which is the one container of that
deployment; so every mount names a declared volume. -/
theorem volumes_match_mounts (m : Router) (config : String) :
    podVolumeNames (deploymentForRouter m) = volumeMountNames (containerForRouter m config) ∧
    (deploymentForRouter m).Spec.Template.Spec.Containers =
      some [containerForRouter m (configForRouter m)] ∧
    (∀ n ∈ volumeMountNames (containerForRouter m config),
      n ∈ podVolumeNames (deploymentForRouter m)) := by
  have h : podVolumeNames (deploymentForRouter m) =
      volumeMountNames (containerForRouter m config) := by
    rw [podVolumeNames_deploymentForRouter, volumeMountNames_containerForRouter]
  refine ⟨h, deploymentForRouter_containers m, ?_⟩
  intro n hn
  rw [h]
  exact hn

/-! ## Properties of the pass -/

/-- A pass of `Handle` on a router that is not deleted: the three parts in sequence on the
defaulted router. -/
theorem Handle_router (sdk : Sdk) (o : Router) :
    Handle sdk { Object := EventObject.router o, Deleted := false } =
      (handleDeployment sdk (setRouterDefaults o).1).andThen
        ((handleService sdk (setRouterDefaults o).1 (setRouterDefaults o).2).andThen
          (handleStatus sdk (setRouterDefaults o).1)) := by
  simp [Handle]

/-- Sequencing after a part that ended `ok`. -/
theorem andThen_of_ok (a b : Pass) (h : a.result = Outcome.ok) :
    a.andThen b = ⟨a.calls ++ b.calls, b.result⟩ := by
  unfold Pass.andThen
  rw [h]

/-- Sequencing after a part that did not end `ok`. -/
theorem andThen_of_not_ok (a b : Pass) (h : a.result ≠ Outcome.ok) :
    a.andThen b = a := by
  unfold Pass.andThen
  cases hr : a.result with
  | ok => exact absurd hr h
  | error msg => rfl
  | fault => rfl

/-- The calls of two parts in sequence start with the calls of the first. -/
theorem andThen_calls_prefix (a b : Pass) :
    ∃ more, (a.andThen b).calls = a.calls ++ more := by
  unfold Pass.andThen
  split
  · exact ⟨b.calls, rfl⟩
  · exact ⟨[], (List.append_nil _).symm⟩

/-- A call of two parts in sequence is a call of one of them. -/
theorem mem_andThen_calls (a b : Pass) (c : Call) (h : c ∈ (a.andThen b).calls) :
    c ∈ a.calls ∨ c ∈ b.calls := by
  unfold Pass.andThen at h
  split at h
  · exact List.mem_append.mp h
  · exact Or.inl h

/-- The names `getPodNames` returns: the nil slice for no pod, the names in order
otherwise. -/
theorem getPodNames_eq (pods : List Pod) :
    getPodNames pods = if pods = [] then none else some (pods.map fun pod => pod.Name) := by
  cases pods with
  | nil => rfl
  | cons pod rest =>
    unfold getPodNames
    rw [List.foldl_cons]
    show List.foldl (fun s (x : Pod) => goAppend s [x.Name]) (some [pod.Name]) rest = _
    rw [foldl_goAppend_singleton (fun x : Pod => x.Name)]
    simp

/-- The deployment part of a pass issues no router update call. -/
theorem handleDeployment_no_router_update (sdk : Sdk) (router : Router) :
    countRouterUpdates (handleDeployment sdk router).calls = 0 := by
  unfold handleDeployment updateDeployment Pass.andThen countRouterUpdates
  dsimp only
  repeat' split
  all_goals simp_all

/-- The service part of a pass issues no router update call. -/
theorem handleService_no_router_update (sdk : Sdk) (router : Router) (requestCert : Bool) :
    countRouterUpdates (handleService sdk router requestCert).calls = 0 := by
  unfold handleService Pass.andThen countRouterUpdates
  dsimp only
  repeat' split
  all_goals simp_all

/-- The calls of the status part when the list call answers with `items`. -/
theorem handleStatus_calls (sdk : Sdk) (router : Router) (items : List Pod)
    (hlist : sdk.ListPods router.Namespace (labelsForRouter router.Name) = Except.ok items) :
    (handleStatus sdk router).calls =
      Call.listPods router.Namespace (labelsForRouter router.Name) ::
        (if getPodNames items = router.Status.Nodes then []
         else [Call.updateRouter
          { router with Status := { router.Status with Nodes := getPodNames items } }]) := by
  unfold handleStatus
  simp only [hlist]
  by_cases h : getPodNames items = router.Status.Nodes
  · simp [h, Pass.andThen]
  · simp only [Pass.andThen, h, if_false]
    cases sdk.UpdateRouter _ <;> simp [h]

/-- C11, as the code has it: `getPodNames` returns the names of the listed instances in
list order, as the nil slice when there is none; in a pass of `Handle` whose deployment and
service parts end without error and whose list call answers, no router update call is
issued when that slice is the stored `Status.Nodes` as `reflect.DeepEqual` compares them,
order-sensitive and the nil slice differing from an empty one, and exactly one, sending the
defaulted router with `Status.Nodes` overwritten by the slice, when they differ; so one
call is issued when no instance is listed and the stored list is empty without being
nil. -/
theorem Handle_status_updates (sdk : Sdk) (o : Router) (items : List Pod)
    (hdep : (handleDeployment sdk (setRouterDefaults o).1).result = Outcome.ok)
    (hsvc : (handleService sdk (setRouterDefaults o).1 (setRouterDefaults o).2).result =
      Outcome.ok)
    (hlist : sdk.ListPods o.Namespace (labelsForRouter o.Name) = Except.ok items) :
    (getPodNames items).getD [] = items.map (fun pod => pod.Name) ∧
    ((getPodNames items).getD []).length = items.length ∧
    (∀ i : Nat, ((getPodNames items).getD [])[i]? = (items[i]?).map (fun pod => pod.Name)) ∧
    (getPodNames items = none ↔ items = []) ∧
    (items = [] → o.Status.Nodes = some [] →
      countRouterUpdates
        (Handle sdk { Object := EventObject.router o, Deleted := false }).calls = 1) ∧
    (getPodNames items = o.Status.Nodes →
      countRouterUpdates
        (Handle sdk { Object := EventObject.router o, Deleted := false }).calls = 0) ∧
    (getPodNames items ≠ o.Status.Nodes →
      countRouterUpdates
        (Handle sdk { Object := EventObject.router o, Deleted := false }).calls = 1 ∧
      (Handle sdk { Object := EventObject.router o, Deleted := false }).calls.getLast? =
        some (Call.updateRouter
          { (setRouterDefaults o).1 with Status := { Nodes := getPodNames items } })) := by
  have hnames : (getPodNames items).getD [] = items.map (fun pod => pod.Name) := by
    rw [getPodNames_eq]
    by_cases h : items = [] <;> simp [h]
  have hns : (setRouterDefaults o).1.Namespace = o.Namespace := by rw [setRouterDefaults_eq]
  have hst : (setRouterDefaults o).1.Status = o.Status := by rw [setRouterDefaults_eq]
  have hcalls := handleStatus_calls sdk (setRouterDefaults o).1 items
    (by rw [hns, setRouterDefaults_name]; exact hlist)
  rw [hst] at hcalls
  have hH : (Handle sdk { Object := EventObject.router o, Deleted := false }).calls =
      (handleDeployment sdk (setRouterDefaults o).1).calls ++
        ((handleService sdk (setRouterDefaults o).1 (setRouterDefaults o).2).calls ++
          (handleStatus sdk (setRouterDefaults o).1).calls) := by
    rw [Handle_router, andThen_of_ok _ _ hdep, andThen_of_ok _ _ hsvc]
  have hcount : countRouterUpdates
      (Handle sdk { Object := EventObject.router o, Deleted := false }).calls =
      countRouterUpdates (handleStatus sdk (setRouterDefaults o).1).calls := by
    rw [hH]
    have h1 := handleDeployment_no_router_update sdk (setRouterDefaults o).1
    have h2 := handleService_no_router_update sdk (setRouterDefaults o).1 (setRouterDefaults o).2
    unfold countRouterUpdates at *
    rw [List.countP_append, List.countP_append, h1, h2]
    simp
  refine ⟨hnames, ?_, ?_, ?_, ?_, ?_, ?_⟩
  · rw [hnames, List.length_map]
  · intro i
    rw [hnames, List.getElem?_map]
  · rw [getPodNames_eq]
    by_cases h : items = [] <;> simp [h]
  · intro hempty hnodes
    have hne : getPodNames items ≠ o.Status.Nodes := by
      rw [hempty, hnodes]
      intro h
      cases h
    rw [hcount, hcalls, if_neg hne]
    simp [countRouterUpdates]
  · intro heq
    rw [hcount, hcalls, if_pos heq]
    simp [countRouterUpdates]
  · intro hne
    constructor
    · rw [hcount, hcalls, if_neg hne]
      simp [countRouterUpdates]
    · rw [hH, hcalls, if_neg hne]
      simp [List.getLast?_append, List.getLast?_cons_cons]

/-- The deployment part when the create call fails with an error other than
already-exists: the create call alone, and the error. -/
theorem handleDeployment_create_failed (sdk : Sdk) (router : Router) (err : SdkError)
    (hres : (sdk.CreateDeployment (deploymentForRouter router)).2 = some err)
    (hkind : IsAlreadyExists err = false) :
    handleDeployment sdk router =
      ⟨[Call.createDeployment (deploymentForRouter router)],
        Outcome.error ("failed to create deployment: " ++ err.text)⟩ := by
  unfold handleDeployment
  simp [hres, hkind, Pass.andThen]

/-- The deployment part when the create call succeeds or fails with already-exists: the
create call, then the fetch call on the object the create call left. -/
theorem handleDeployment_create_passed (sdk : Sdk) (router : Router)
    (h : ∀ err, (sdk.CreateDeployment (deploymentForRouter router)).2 = some err →
      IsAlreadyExists err = true) :
    ∃ rest, (handleDeployment sdk router).calls =
      Call.createDeployment (deploymentForRouter router) ::
        Call.getDeployment (sdk.CreateDeployment (deploymentForRouter router)).1 :: rest := by
  unfold handleDeployment
  cases hres : (sdk.CreateDeployment (deploymentForRouter router)).2 with
  | none =>
    cases hget : sdk.GetDeployment (sdk.CreateDeployment (deploymentForRouter router)).1 <;>
      simp [hres, hget, Pass.andThen]
  | some err =>
    cases hget : sdk.GetDeployment (sdk.CreateDeployment (deploymentForRouter router)).1 <;>
      simp [hres, hget, h err hres, Pass.andThen]

/-- The service part when the create call fails with an error other than already-exists. -/
theorem handleService_create_failed (sdk : Sdk) (router : Router) (requestCert : Bool)
    (err : SdkError)
    (hres : (sdk.CreateService (serviceForRouter router requestCert)).2 = some err)
    (hkind : IsAlreadyExists err = false) :
    handleService sdk router requestCert =
      ⟨[Call.createService (serviceForRouter router requestCert)],
        Outcome.error ("failed to create service: " ++ err.text)⟩ := by
  unfold handleService
  simp [hres, hkind, Pass.andThen]

/-- The service part when the create call succeeds or fails with already-exists. -/
theorem handleService_create_passed (sdk : Sdk) (router : Router) (requestCert : Bool)
    (h : ∀ err, (sdk.CreateService (serviceForRouter router requestCert)).2 = some err →
      IsAlreadyExists err = true) :
    ∃ rest, (handleService sdk router requestCert).calls =
      Call.createService (serviceForRouter router requestCert) ::
        Call.getService (sdk.CreateService (serviceForRouter router requestCert)).1 :: rest := by
  unfold handleService
  cases hres : (sdk.CreateService (serviceForRouter router requestCert)).2 with
  | none =>
    cases hget : sdk.GetService (sdk.CreateService (serviceForRouter router requestCert)).1 <;>
      simp [hres, hget, Pass.andThen]
  | some err =>
    cases hget : sdk.GetService (sdk.CreateService (serviceForRouter router requestCert)).1 <;>
      simp [hres, hget, h err hres, Pass.andThen]

/-- An already-exists answer to the create call of the deployment leaves the deployment
part as a create call without error leaves it. -/
theorem handleDeployment_already_exists (sdk : Sdk) (router : Router) (err : SdkError)
    (hres : (sdk.CreateDeployment (deploymentForRouter router)).2 = some err)
    (hkind : IsAlreadyExists err = true) :
    handleDeployment sdk router = handleDeployment (withDeploymentCreated sdk) router := by
  unfold handleDeployment withDeploymentCreated
  simp only [hres, hkind]
  rfl

/-- An already-exists answer to the create call of the service leaves the service part as
a create call without error leaves it. -/
theorem handleService_already_exists (sdk : Sdk) (router : Router) (requestCert : Bool)
    (err : SdkError)
    (hres : (sdk.CreateService (serviceForRouter router requestCert)).2 = some err)
    (hkind : IsAlreadyExists err = true) :
    handleService sdk router requestCert =
      handleService (withServiceCreated sdk) router requestCert := by
  unfold handleService withServiceCreated
  simp only [hres, hkind]
  rfl

/-- C18: in a pass of `Handle`, a create call of the deployment that fails with an error
other than already-exists ends the pass with that error after the create call alone; one
that fails with already-exists is followed by the fetch call, and the pass is the pass of
a store whose create call reported no error; and the same holds for the create call of the
service, the calls of the deployment part coming first. -/
theorem Handle_create_outcomes (sdk : Sdk) (o : Router) :
    (∀ err, (sdk.CreateDeployment (deploymentForRouter (setRouterDefaults o).1)).2 = some err →
      IsAlreadyExists err = false →
      Handle sdk { Object := EventObject.router o, Deleted := false } =
        ⟨[Call.createDeployment (deploymentForRouter (setRouterDefaults o).1)],
          Outcome.error ("failed to create deployment: " ++ err.text)⟩) ∧
    (∀ err, (sdk.CreateDeployment (deploymentForRouter (setRouterDefaults o).1)).2 = some err →
      IsAlreadyExists err = true →
      (∃ rest, (Handle sdk { Object := EventObject.router o, Deleted := false }).calls =
        Call.createDeployment (deploymentForRouter (setRouterDefaults o).1) ::
          Call.getDeployment
            (sdk.CreateDeployment (deploymentForRouter (setRouterDefaults o).1)).1 :: rest) ∧
      Handle sdk { Object := EventObject.router o, Deleted := false } =
        Handle (withDeploymentCreated sdk) { Object := EventObject.router o, Deleted := false }) ∧
    ((handleDeployment sdk (setRouterDefaults o).1).result = Outcome.ok →
      (∀ err,
        (sdk.CreateService
          (serviceForRouter (setRouterDefaults o).1 (setRouterDefaults o).2)).2 = some err →
        IsAlreadyExists err = false →
        Handle sdk { Object := EventObject.router o, Deleted := false } =
          ⟨(handleDeployment sdk (setRouterDefaults o).1).calls ++
              [Call.createService
                (serviceForRouter (setRouterDefaults o).1 (setRouterDefaults o).2)],
            Outcome.error ("failed to create service: " ++ err.text)⟩) ∧
      (∀ err,
        (sdk.CreateService
          (serviceForRouter (setRouterDefaults o).1 (setRouterDefaults o).2)).2 = some err →
        IsAlreadyExists err = true →
        (∃ rest, (Handle sdk { Object := EventObject.router o, Deleted := false }).calls =
          (handleDeployment sdk (setRouterDefaults o).1).calls ++
            Call.createService
                (serviceForRouter (setRouterDefaults o).1 (setRouterDefaults o).2) ::
              Call.getService
                (sdk.CreateService
                  (serviceForRouter (setRouterDefaults o).1 (setRouterDefaults o).2)).1 ::
              rest) ∧
        Handle sdk { Object := EventObject.router o, Deleted := false } =
          Handle (withServiceCreated sdk)
            { Object := EventObject.router o, Deleted := false })) := by
  refine ⟨?_, ?_, ?_⟩
  · intro err hres hkind
    rw [Handle_router, handleDeployment_create_failed sdk _ err hres hkind]
    rfl
  · intro err hres hkind
    constructor
    · obtain ⟨rest, hrest⟩ := handleDeployment_create_passed sdk (setRouterDefaults o).1
        (fun e he => by rw [hres] at he; cases he; exact hkind)
      obtain ⟨more, hmore⟩ := andThen_calls_prefix (handleDeployment sdk (setRouterDefaults o).1)
        ((handleService sdk (setRouterDefaults o).1 (setRouterDefaults o).2).andThen
          (handleStatus sdk (setRouterDefaults o).1))
      rw [Handle_router, hmore, hrest]
      exact ⟨rest ++ more, rfl⟩
    · rw [Handle_router, Handle_router, handleDeployment_already_exists sdk _ err hres hkind]
      rfl
  · intro hdep
    constructor
    · intro err hres hkind
      rw [Handle_router, andThen_of_ok _ _ hdep,
        handleService_create_failed sdk _ _ err hres hkind]
      rfl
    · intro err hres hkind
      constructor
      · obtain ⟨rest, hrest⟩ := handleService_create_passed sdk (setRouterDefaults o).1
          (setRouterDefaults o).2 (fun e he => by rw [hres] at he; cases he; exact hkind)
        obtain ⟨more, hmore⟩ := andThen_calls_prefix
          (handleService sdk (setRouterDefaults o).1 (setRouterDefaults o).2)
          (handleStatus sdk (setRouterDefaults o).1)
        rw [Handle_router, andThen_of_ok _ _ hdep]
        show ∃ rest_1, (handleDeployment sdk (setRouterDefaults o).1).calls ++
          ((handleService sdk (setRouterDefaults o).1 (setRouterDefaults o).2).andThen
            (handleStatus sdk (setRouterDefaults o).1)).calls = _
        rw [hmore, hrest]
        exact ⟨rest ++ more, rfl⟩
      · rw [Handle_router, Handle_router, handleService_already_exists sdk _ _ err hres hkind]
        rfl

/-- The deployment the update part of `Handle` sends: the fetched one with the replica
count and the container list possibly replaced. -/
theorem updateDeployment_sent (sdk : Sdk) (router : Router) (container : Container)
    (dep sent : Deployment)
    (h : Call.updateDeployment sent ∈ (updateDeployment sdk router container dep).calls) :
    sent = { dep with Spec := { dep.Spec with
        Replicas := sent.Spec.Replicas,
        Template := { dep.Spec.Template with Spec := { dep.Spec.Template.Spec with
          Containers := sent.Spec.Template.Spec.Containers } } } } ∧
    (sent.Spec.Replicas = dep.Spec.Replicas ∨ sent.Spec.Replicas = some router.Spec.Size) ∧
    (sent.Spec.Template.Spec.Containers = dep.Spec.Template.Spec.Containers ∨
      sent.Spec.Template.Spec.Containers = some [container]) := by
  obtain ⟨tm, om, ⟨rep, sel, ⟨tom, ⟨vols, conts⟩⟩⟩⟩ := dep
  unfold updateDeployment at h
  dsimp only at h
  by_cases hs : router.Spec.Size = 0
  · simp only [hs, ne_eq, not_true_eq_false, if_false] at h
    repeat' split at h
    all_goals first
      | (simp at h; done)
      | (simp at h; subst h; simp)
  · simp only [hs, ne_eq, not_false_eq_true, if_true] at h
    cases rep with
    | none => simp at h
    | some replicas =>
      by_cases hq : replicas = router.Spec.Size
      · simp only [hq, ne_eq, not_true_eq_false, if_false] at h
        repeat' split at h
        all_goals first
          | (simp at h; done)
          | (simp at h; subst h; simp)
      · simp only [hq, ne_eq, not_false_eq_true, if_true] at h
        repeat' split at h
        all_goals first
          | (simp at h; done)
          | (simp at h; subst h; simp)

/-- A deployment update call of the deployment part is a call of its update part on the
deployment the fetch call answered with. -/
theorem handleDeployment_update_call (sdk : Sdk) (router : Router) (sent : Deployment)
    (h : Call.updateDeployment sent ∈ (handleDeployment sdk router).calls) :
    ∃ fetched,
      sdk.GetDeployment (sdk.CreateDeployment (deploymentForRouter router)).1 =
        Except.ok fetched ∧
      Call.updateDeployment sent ∈
        (updateDeployment sdk router (containerForRouter router (configForRouter router))
          fetched).calls := by
  unfold handleDeployment at h
  dsimp only at h
  rcases mem_andThen_calls _ _ _ h with h1 | h2
  · repeat' split at h1
    all_goals simp at h1
  · cases hget : sdk.GetDeployment (sdk.CreateDeployment (deploymentForRouter router)).1 with
    | error err =>
      rw [hget] at h2
      simp at h2
    | ok fetched =>
      rw [hget] at h2
      refine ⟨fetched, rfl, ?_⟩
      rcases mem_andThen_calls _ _ _ h2 with h3 | h3
      · simp at h3
      · exact h3

/-- C19: a deployment update call of a pass of `Handle` sends the deployment the fetch call
answered with, its replica count kept or set to `Size` and its container list kept or
replaced by the desired container; every other field, the pod volume list among them, is
as fetched. -/
theorem Handle_update_frame (sdk : Sdk) (o : Router) (sent : Deployment)
    (h : Call.updateDeployment sent ∈
      (Handle sdk { Object := EventObject.router o, Deleted := false }).calls) :
    ∃ fetched,
      sdk.GetDeployment
          (sdk.CreateDeployment (deploymentForRouter (setRouterDefaults o).1)).1 =
        Except.ok fetched ∧
      sent = { fetched with Spec := { fetched.Spec with
          Replicas := sent.Spec.Replicas,
          Template := { fetched.Spec.Template with Spec := { fetched.Spec.Template.Spec with
            Containers := sent.Spec.Template.Spec.Containers } } } } ∧
      sent.Spec.Template.Spec.Volumes = fetched.Spec.Template.Spec.Volumes ∧
      (sent.Spec.Replicas = fetched.Spec.Replicas ∨ sent.Spec.Replicas = some o.Spec.Size) ∧
      (sent.Spec.Template.Spec.Containers = fetched.Spec.Template.Spec.Containers ∨
        sent.Spec.Template.Spec.Containers =
          some [containerForRouter (setRouterDefaults o).1
            (configForRouter (setRouterDefaults o).1)]) := by
  have hsize : (setRouterDefaults o).1.Spec.Size = o.Spec.Size := by
    rw [setRouterDefaults_eq]
  rw [Handle_router] at h
  have hd : Call.updateDeployment sent ∈ (handleDeployment sdk (setRouterDefaults o).1).calls := by
    rcases mem_andThen_calls _ _ _ h with h1 | h2
    · exact h1
    · exfalso
      rcases mem_andThen_calls _ _ _ h2 with h3 | h3
      · have h0 := handleService_no_deployment_update sdk (setRouterDefaults o).1
          (setRouterDefaults o).2
        unfold countDeploymentUpdates at h0
        rw [List.countP_eq_zero] at h0
        exact absurd rfl (h0 _ h3)
      · have h0 := handleStatus_no_deployment_update sdk (setRouterDefaults o).1
        unfold countDeploymentUpdates at h0
        rw [List.countP_eq_zero] at h0
        exact absurd rfl (h0 _ h3)
  obtain ⟨fetched, hget, hupd⟩ := handleDeployment_update_call sdk _ sent hd
  obtain ⟨hframe, hrep, hcont⟩ := updateDeployment_sent sdk _ _ fetched sent hupd
  refine ⟨fetched, hget, hframe, ?_, ?_, hcont⟩
  · rw [hframe]
  · rw [← hsize]
    exact hrep

/-- The statement of C11 on the router `r1` whose status names the two running instances in
the other order: the pass issues one router update call. -/
theorem Handle_status_updates_witness :
    countRouterUpdates
        (Handle podSdk { Object := EventObject.router reorderedRouter, Deleted := false }).calls =
      1 :=
  ((Handle_status_updates podSdk reorderedRouter
      [({ Name := "r1-a" } : Pod), ({ Name := "r1-b" } : Pod)]
      (by decide) (by decide) rfl).2.2.2.2.2.2 (by decide)).1

/-- The statement of C18 on the router `r1` and a store that refuses the create call of the
deployment: the pass is that call and the error. -/
theorem Handle_create_outcomes_witness :
    Handle brokenSdk { Object := EventObject.router r1, Deleted := false } =
      ⟨[Call.createDeployment (deploymentForRouter (setRouterDefaults r1).1)],
        Outcome.error "failed to create deployment: forbidden"⟩ :=
  (Handle_create_outcomes brokenSdk r1).1 (SdkError.other "forbidden") rfl rfl

/-- The statement of C19 on a router with SSL profiles and a stored deployment without pod
volume: the deployment sent has the two mounts of the desired container and the pod volume
list as fetched, which is empty. -/
theorem Handle_update_frame_witness :
    volumeMountNames (containerForRouter (setRouterDefaults tlsRouter).1
        (configForRouter (setRouterDefaults tlsRouter).1)) = ["internal-secret", "r3-cert"] ∧
    podVolumeNames staleSent = [] ∧
    ∃ fetched,
      staleSdk.GetDeployment
          (staleSdk.CreateDeployment (deploymentForRouter (setRouterDefaults tlsRouter).1)).1 =
        Except.ok fetched ∧
      staleSent.Spec.Template.Spec.Volumes = fetched.Spec.Template.Spec.Volumes :=
  ⟨by decide, by decide,
    (Handle_update_frame staleSdk tlsRouter staleSent (by decide)).imp
      fun _ h => ⟨h.1, h.2.2.1⟩⟩

/-! ## Properties of the configuration document -/

/-- A range whose body cannot fail writes the blocks of its elements in order. -/
theorem execRange_text {α : Type} (f : α → String) (l : List α) :
    execRange (fun x => Exec.text (f x)) l = Exec.text (joinBlocks (l.map f)) := by
  induction l with
  | nil => rfl
  | cons x xs ih =>
    simp only [execRange, ih, List.map_cons, joinBlocks]
    rfl

/-- A text followed by an execution. -/
theorem seq_text (s : String) (e : Exec) :
    (Exec.text s).seq e = ⟨s ++ e.out, e.failed⟩ := by
  simp [Exec.seq, Exec.text]

/-- The template in two parts: the identity block and the two listener sections, which
cannot fail, then the rest. -/
theorem executeTemplate_listeners (spec : RouterSpec) :
    executeTemplate spec =
      ⟨routerBlock ++ (joinBlocks (spec.Listeners.map listenerBlock) ++ (sectionGap ++
          (joinBlocks (spec.InterRouterListeners.map interRouterListenerBlock) ++
            (sectionGap ++ (executeAfterListeners spec).out)))),
        (executeAfterListeners spec).failed⟩ := by
  unfold executeTemplate
  rw [execRange_text, execRange_text]
  simp only [seq_text]
  rfl

/-- A range over auto-link entries stops in the first block. -/
theorem execRange_autoLinkBlock (entries : List Address) :
    execRange autoLinkBlock entries =
      if entries = [] then Exec.text "" else ⟨"\n    autoLink \x7b", true⟩ := by
  cases entries with
  | nil => rfl
  | cons a rest => simp [execRange, autoLinkBlock, Exec.seq]

/-- A range over connectors stops in the first block, before its role line. -/
theorem execRange_connectorBlock (c : Connector) (rest : List Connector) :
    execRange connectorBlock (c :: rest) = connectorBlock c ∧
    (connectorBlock c).failed = true := by
  simp [execRange, connectorBlock, Exec.seq]

/-- The execution of the template stops with an error exactly when the spec has an
auto-link entry or a connector. -/
theorem executeTemplate_failed_iff (spec : RouterSpec) :
    (executeTemplate spec).failed = true ↔ spec.AutoLinks ≠ [] ∨ spec.Connectors ≠ [] := by
  rw [executeTemplate_listeners]
  unfold executeAfterListeners
  rw [execRange_text, execRange_text, execRange_text]
  simp only [seq_text, execRange_autoLinkBlock]
  cases ha : spec.AutoLinks with
  | cons a rest => simp [Exec.seq]
  | nil =>
    cases hc : spec.Connectors with
    | nil => simp [Exec.seq, Exec.text, execRange]
    | cons c rest => simp [Exec.seq, Exec.text, execRange, connectorBlock]

/-- C15, at a defaulted router with two connectors: the execution of the template stops
with an error in the first connector block, at its role line; the document has one
connector block where the claim requires two, and ends with the port line of the first
connector, so the block is not closed and carries neither role nor cost. -/
theorem connector_block_truncated :
    (executeTemplate connectorRouter.Spec).failed = true ∧
    connectorRouter.Spec.Connectors.length = 2 ∧
    countBlocks "connector" (configForRouter connectorRouter) = 1 ∧
    lastLine (configForRouter connectorRouter) = some "        port: 5672" ∧
    "        cost: 2".data ∉ linesOf (configForRouter connectorRouter).data := by
  decide

/-- C16, at a defaulted router with one auto-link entry and one connector: the execution
of the template stops with an error in the auto-link block, at its first line; the
document ends with the opening line of that block, which is not closed, and the connector
section is not written. -/
theorem autoLink_block_truncated :
    (executeTemplate autoLinkRouter.Spec).failed = true ∧
    autoLinkRouter.Spec.AutoLinks.length = 1 ∧
    lastLine (configForRouter autoLinkRouter) = some "    autoLink \x7b" ∧
    autoLinkRouter.Spec.Connectors.length = 1 ∧
    countBlocks "connector" (configForRouter autoLinkRouter) = 0 := by
  decide

/-- C17: the document of `configForRouter` is the identity block, then one listener block
per client-facing listener in declaration order, then one per inter-router listener in
declaration order, then the later sections, which cannot remove them; a block opens with
`listener \x7b` and closes with `\x7d`, carries the port line of its listener when the port
is not 0 and the name line when the name is set, and the host line `0.0.0.0` when no host
is declared; an inter-router block carries the role line `inter-router` and does not
depend on the route-container flag.  On the router `r8` with two client-facing listeners
and one inter-router listener the document has three listener blocks, with the port lines
5672, 5671 and 55672 in that order. -/
theorem configForRouter_listener_blocks (m : Router) :
    configForRouter m =
      routerBlock ++ (joinBlocks (m.Spec.Listeners.map listenerBlock) ++ (sectionGap ++
        (joinBlocks (m.Spec.InterRouterListeners.map interRouterListenerBlock) ++
          (sectionGap ++ (executeAfterListeners m.Spec).out)))) ∧
    (m.Spec.Listeners.map listenerBlock ++
        m.Spec.InterRouterListeners.map interRouterListenerBlock).length =
      m.Spec.Listeners.length + m.Spec.InterRouterListeners.length ∧
    (∀ l : Listener,
      (∃ body, listenerBlock l = "\n    listener \x7b" ++ body ++ "\n    \x7d") ∧
      (∃ body, interRouterListenerBlock l = "\n    listener \x7b" ++ body ++ "\n    \x7d") ∧
      (l.Port ≠ 0 →
        (∃ pre post, listenerBlock l = pre ++ ("\n        port: " ++ itoa l.Port) ++ post) ∧
        (∃ pre post,
          interRouterListenerBlock l = pre ++ ("\n        port: " ++ itoa l.Port) ++ post)) ∧
      (l.Name ≠ "" →
        (∃ post, listenerBlock l =
          "\n    listener \x7b" ++ ("\n        name: " ++ l.Name) ++ post) ∧
        (∃ post, interRouterListenerBlock l =
          "\n    listener \x7b" ++ ("\n        name: " ++ l.Name) ++ post)) ∧
      (l.Host = "" →
        (∃ pre post, listenerBlock l = pre ++ "\n        host: 0.0.0.0" ++ post) ∧
        (∃ pre post, interRouterListenerBlock l = pre ++ "\n        host: 0.0.0.0" ++ post)) ∧
      (∃ pre post, interRouterListenerBlock l = pre ++ "\n        role: inter-router" ++ post) ∧
      (∀ flag : Bool,
        interRouterListenerBlock { l with RouteContainer := flag } =
          interRouterListenerBlock l)) ∧
    countBlocks "listener" (configForRouter listenerRouter) = 3 ∧
    (linesOf (configForRouter listenerRouter).data).filter
        (fun line => "        port: ".data.isPrefixOf line) =
      ["        port: 5672".data, "        port: 5671".data, "        port: 55672".data] := by
  refine ⟨?_, ?_, ?_, by decide, by decide⟩
  · unfold configForRouter
    rw [executeTemplate_listeners]
  · simp
  · intro l
    refine ⟨?_, ?_, ?_, ?_, ?_, ?_, ?_⟩
    · exact ⟨(if l.Name ≠ "" then "\n        name: " ++ l.Name else "")
        ++ (if l.Host ≠ "" then "\n        host: " ++ l.Host else "\n        host: 0.0.0.0")
        ++ (if l.Port ≠ 0 then "\n        port: " ++ itoa l.Port else "")
        ++ (if l.RouteContainer then "\n        role: route-container"
            else "\n        role: normal")
        ++ (if l.Http then
              "\n        http: true\n        httpRootDir: /usr/share/qpid-dispatch/console"
            else "")
        ++ (if l.SslProfile ≠ "" then "\n        sslProfile: " ++ l.SslProfile else ""),
        by simp only [listenerBlock, String.append_assoc]⟩
    · exact ⟨(if l.Name ≠ "" then "\n        name: " ++ l.Name else "")
        ++ "\n        role: inter-router"
        ++ (if l.Host ≠ "" then "\n        host: " ++ l.Host else "\n        host: 0.0.0.0")
        ++ (if l.Port ≠ 0 then "\n        port: " ++ itoa l.Port else "")
        ++ (if l.Cost ≠ 0 then "\n        cost: " ++ itoa l.Cost else "")
        ++ (if l.SslProfile ≠ "" then "\n        sslProfile: " ++ l.SslProfile else ""),
        by simp only [interRouterListenerBlock, String.append_assoc]⟩
    · intro hp
      constructor
      · exact ⟨"\n    listener \x7b"
          ++ (if l.Name ≠ "" then "\n        name: " ++ l.Name else "")
          ++ (if l.Host ≠ "" then "\n        host: " ++ l.Host else "\n        host: 0.0.0.0"),
          (if l.RouteContainer then "\n        role: route-container"
            else "\n        role: normal")
          ++ (if l.Http then
                "\n        http: true\n        httpRootDir: /usr/share/qpid-dispatch/console"
              else "")
          ++ (if l.SslProfile ≠ "" then "\n        sslProfile: " ++ l.SslProfile else "")
          ++ "\n    \x7d",
          by simp only [listenerBlock, if_pos hp, String.append_assoc]⟩
      · exact ⟨"\n    listener \x7b"
          ++ (if l.Name ≠ "" then "\n        name: " ++ l.Name else "")
          ++ "\n        role: inter-router"
          ++ (if l.Host ≠ "" then "\n        host: " ++ l.Host else "\n        host: 0.0.0.0"),
          (if l.Cost ≠ 0 then "\n        cost: " ++ itoa l.Cost else "")
          ++ (if l.SslProfile ≠ "" then "\n        sslProfile: " ++ l.SslProfile else "")
          ++ "\n    \x7d",
          by simp only [interRouterListenerBlock, if_pos hp, String.append_assoc]⟩
    · intro hn
      constructor
      · exact ⟨(if l.Host ≠ "" then "\n        host: " ++ l.Host else "\n        host: 0.0.0.0")
          ++ (if l.Port ≠ 0 then "\n        port: " ++ itoa l.Port else "")
          ++ (if l.RouteContainer then "\n        role: route-container"
              else "\n        role: normal")
          ++ (if l.Http then
                "\n        http: true\n        httpRootDir: /usr/share/qpid-dispatch/console"
              else "")
          ++ (if l.SslProfile ≠ "" then "\n        sslProfile: " ++ l.SslProfile else "")
          ++ "\n    \x7d",
          by simp only [listenerBlock, if_pos hn, String.append_assoc]⟩
      · exact ⟨"\n        role: inter-router"
          ++ (if l.Host ≠ "" then "\n        host: " ++ l.Host else "\n        host: 0.0.0.0")
          ++ (if l.Port ≠ 0 then "\n        port: " ++ itoa l.Port else "")
          ++ (if l.Cost ≠ 0 then "\n        cost: " ++ itoa l.Cost else "")
          ++ (if l.SslProfile ≠ "" then "\n        sslProfile: " ++ l.SslProfile else "")
          ++ "\n    \x7d",
          by simp only [interRouterListenerBlock, if_pos hn, String.append_assoc]⟩
    · intro hh
      have hh' : ¬ l.Host ≠ "" := not_not.mpr hh
      constructor
      · exact ⟨"\n    listener \x7b"
          ++ (if l.Name ≠ "" then "\n        name: " ++ l.Name else ""),
          (if l.Port ≠ 0 then "\n        port: " ++ itoa l.Port else "")
          ++ (if l.RouteContainer then "\n        role: route-container"
              else "\n        role: normal")
          ++ (if l.Http then
                "\n        http: true\n        httpRootDir: /usr/share/qpid-dispatch/console"
              else "")
          ++ (if l.SslProfile ≠ "" then "\n        sslProfile: " ++ l.SslProfile else "")
          ++ "\n    \x7d",
          by simp only [listenerBlock, if_neg hh', String.append_assoc]⟩
      · exact ⟨"\n    listener \x7b"
          ++ (if l.Name ≠ "" then "\n        name: " ++ l.Name else "")
          ++ "\n        role: inter-router",
          (if l.Port ≠ 0 then "\n        port: " ++ itoa l.Port else "")
          ++ (if l.Cost ≠ 0 then "\n        cost: " ++ itoa l.Cost else "")
          ++ (if l.SslProfile ≠ "" then "\n        sslProfile: " ++ l.SslProfile else "")
          ++ "\n    \x7d",
          by simp only [interRouterListenerBlock, if_neg hh', String.append_assoc]⟩
    · exact ⟨"\n    listener \x7b"
        ++ (if l.Name ≠ "" then "\n        name: " ++ l.Name else ""),
        (if l.Host ≠ "" then "\n        host: " ++ l.Host else "\n        host: 0.0.0.0")
        ++ (if l.Port ≠ 0 then "\n        port: " ++ itoa l.Port else "")
        ++ (if l.Cost ≠ 0 then "\n        cost: " ++ itoa l.Cost else "")
        ++ (if l.SslProfile ≠ "" then "\n        sslProfile: " ++ l.SslProfile else "")
        ++ "\n    \x7d",
        by simp only [interRouterListenerBlock, String.append_assoc]⟩
    · intro flag
      rfl

/-! ## Properties of the annotation write of `checkService` -/

/-- Removing the entries of one key keeps the binding of every other key. -/
theorem lookup_filter_ne (es : List (String × String)) (k key : String) (h : k ≠ key) :
    (es.filter (fun e => e.1 != key)).lookup k = es.lookup k := by
  induction es with
  | nil => rfl
  | cons e rest ih =>
    obtain ⟨a, b⟩ := e
    by_cases ha : a = key
    · subst ha
      have hka : (k == a) = false := beq_eq_false_iff_ne.mpr h
      simp [List.filter, List.lookup, hka, ih]
    · have hne : (a != key) = true := by simpa using ha
      simp only [List.filter, hne, List.lookup]
      rw [ih]

/-- A write into a map that is not nil binds the key and keeps every other binding. -/
theorem GoMap.get_set (es : List (String × String)) (key value k : String) :
    ∃ m, GoMap.set (some es) key value = some m ∧
      GoMap.get m key = value ∧
      (k ≠ key → GoMap.get m k = GoMap.get (some es) k) := by
  refine ⟨some ((key, value) :: es.filter (fun e => e.1 != key)), rfl, ?_, ?_⟩
  · simp [GoMap.get, List.lookup]
  · intro hk
    have hkk : (k == key) = false := beq_eq_false_iff_ne.mpr hk
    simp [GoMap.get, List.lookup, hkk, lookup_filter_ne es k key hk]

/-- The annotation step of `checkService`, which decides whether the function faults. -/
theorem checkService_eq_none_iff (desired actual : Service) :
    checkService desired actual = none ↔
      actual.Annotations = none ∧ desired.Annotations.get certRequestAnnotation ≠ "" := by
  unfold checkService
  dsimp only
  by_cases heq : desired.Annotations.get certRequestAnnotation =
      actual.Annotations.get certRequestAnnotation
  · simp only [heq, beq_self_eq_true, Bool.not_true, Bool.false_eq_true, if_false]
    constructor
    · intro h
      cases h
    · rintro ⟨hnil, hne⟩
      rw [hnil] at hne
      exact absurd rfl hne
  · have hb : (!(desired.Annotations.get certRequestAnnotation ==
        actual.Annotations.get certRequestAnnotation)) = true := by simpa using heq
    simp only [hb, if_true]
    cases hann : actual.Annotations with
    | none =>
      rw [hann] at heq
      simp [GoMap.set, GoMap.get] at heq ⊢
      exact heq
    | some es =>
      simp [GoMap.set]

/-- The annotation map `checkService` leaves in the observed service when it returns: the
observed map when the two values are equal, and otherwise the observed map, which is not
nil, with the desired value written under the certificate-request key. -/
theorem checkService_annotations (desired actual : Service) (r : Bool × Service)
    (h : checkService desired actual = some r) :
    (desired.Annotations.get certRequestAnnotation =
        actual.Annotations.get certRequestAnnotation →
      r.2.Annotations = actual.Annotations) ∧
    (desired.Annotations.get certRequestAnnotation ≠
        actual.Annotations.get certRequestAnnotation →
      some r.2.Annotations =
        actual.Annotations.set certRequestAnnotation
          (desired.Annotations.get certRequestAnnotation)) := by
  unfold checkService at h
  dsimp only at h
  by_cases heq : desired.Annotations.get certRequestAnnotation =
      actual.Annotations.get certRequestAnnotation
  · simp only [heq, beq_self_eq_true, Bool.not_true, Bool.false_eq_true, if_false] at h
    simp only [Option.some.injEq] at h
    refine ⟨fun _ => ?_, fun hne => absurd heq hne⟩
    rw [← h]
    split_ifs <;> rfl
  · have hb : (!(desired.Annotations.get certRequestAnnotation ==
        actual.Annotations.get certRequestAnnotation)) = true := by simpa using heq
    simp only [hb, if_true] at h
    refine ⟨fun he => absurd he heq, fun _ => ?_⟩
    cases hset : actual.Annotations.set certRequestAnnotation
        (desired.Annotations.get certRequestAnnotation) with
    | none =>
      rw [hset] at h
      simp at h
    | some annotations =>
      rw [hset] at h
      simp only [Option.map_some', Option.some.injEq] at h
      rw [← h]
      split_ifs <;> rfl

/-- C21 as stated fails on a desired service that carries the certificate-request
annotation with an empty value and an observed service without annotation map: the two
values are equal, nothing is written and `checkService` returns. -/
theorem checkService_empty_annotation_returns :
    emptyAnnotationDesired.Annotations.has certRequestAnnotation = true ∧
    unannotatedActual.Annotations = none ∧
    checkService emptyAnnotationDesired unannotatedActual = some (false, unannotatedActual) := by
  decide

/-- C21, as the code has it: `checkService` faults exactly when the observed service has
no annotation map and the certificate-request value of the desired service is not empty,
which is the case of every desired service built by `serviceForRouter` with `requestCert`
true, and returns for every other pair; when it returns and the two values differ, the
observed map has the desired value written under the certificate-request key, every other
key keeping its value, and when they are equal the map is as observed. -/
theorem checkService_faults_iff (desired actual : Service) :
    (checkService desired actual = none ↔
      actual.Annotations = none ∧ desired.Annotations.get certRequestAnnotation ≠ "") ∧
    (desired.Annotations.get certRequestAnnotation ≠ "" →
      desired.Annotations.has certRequestAnnotation = true) ∧
    (∀ m : Router, actual.Annotations = none →
      checkService (serviceForRouter m true) actual = none) ∧
    (∀ r, checkService desired actual = some r →
      r.2.Annotations.get certRequestAnnotation =
        desired.Annotations.get certRequestAnnotation ∧
      (∀ k, k ≠ certRequestAnnotation →
        r.2.Annotations.get k = actual.Annotations.get k) ∧
      (desired.Annotations.get certRequestAnnotation =
          actual.Annotations.get certRequestAnnotation →
        r.2.Annotations = actual.Annotations) ∧
      (desired.Annotations.get certRequestAnnotation ≠
          actual.Annotations.get certRequestAnnotation →
        some r.2.Annotations =
          actual.Annotations.set certRequestAnnotation
            (desired.Annotations.get certRequestAnnotation))) := by
  refine ⟨checkService_eq_none_iff desired actual, ?_, ?_, ?_⟩
  · intro hne
    cases hann : desired.Annotations with
    | none =>
      rw [hann] at hne
      exact absurd rfl hne
    | some es =>
      rw [hann] at hne
      cases hl : es.lookup certRequestAnnotation with
      | none =>
        simp [GoMap.get, hl] at hne
      | some v =>
        simp [GoMap.has, hl]
  · intro m hnil
    rw [checkService_eq_none_iff]
    refine ⟨hnil, ?_⟩
    have hget : (serviceForRouter m true).Annotations.get certRequestAnnotation =
        m.Name ++ "-cert" := by
      show GoMap.get (some [( certRequestAnnotation, m.Name ++ "-cert")])
        certRequestAnnotation = _
      simp [GoMap.get, List.lookup]
    rw [hget]
    exact certName_ne_empty m.Name
  · intro r hr
    obtain ⟨hsame, hdiff⟩ := checkService_annotations desired actual r hr
    refine ⟨?_, ?_, hsame, hdiff⟩
    · by_cases heq : desired.Annotations.get certRequestAnnotation =
          actual.Annotations.get certRequestAnnotation
      · rw [hsame heq, heq]
      · have hset := hdiff heq
        cases hann : actual.Annotations with
        | none =>
          rw [hann] at hset
          simp [GoMap.set] at hset
        | some es =>
          rw [hann] at hset
          obtain ⟨m, hm, hval, _⟩ := GoMap.get_set es certRequestAnnotation
            (desired.Annotations.get certRequestAnnotation) certRequestAnnotation
          rw [hm] at hset
          cases hset
          exact hval
    · intro k hk
      by_cases heq : desired.Annotations.get certRequestAnnotation =
          actual.Annotations.get certRequestAnnotation
      · rw [hsame heq]
      · have hset := hdiff heq
        cases hann : actual.Annotations with
        | none =>
          rw [hann] at hset
          simp [GoMap.set] at hset
        | some es =>
          rw [hann] at hset
          obtain ⟨m, hm, _, hother⟩ := GoMap.get_set es certRequestAnnotation
            (desired.Annotations.get certRequestAnnotation) k
          rw [hm] at hset
          cases hset
          exact hother hk

/-- The statement of C21 as amended, on the desired service of `r1` with `requestCert` true
and an observed service without annotation map: `checkService` faults, and so does the pass
of `Handle` on `r1` that fetches this service. -/
theorem checkService_faults_iff_witness :
    checkService (serviceForRouter r1 true) unannotatedActual = none ∧
    (setRouterDefaults r1).2 = true ∧
    (Handle (fetchedServiceSdk unannotatedActual)
        { Object := EventObject.router r1, Deleted := false }).result = Outcome.fault :=
  ⟨(checkService_faults_iff (serviceForRouter r1 true) unannotatedActual).2.2.1 r1 rfl,
    by decide, by decide⟩

/-! ## Nil and empty lists in the comparisons of a pass -/

/-- C10 as stated fails on a router whose SSL profile names no secret, against a stored
deployment whose container has the nil mount list: the environment lists are equal, the
port lists are equal, both mount lists are empty and `Size` is 0, yet the pass issues one
deployment update call, because the desired mount list is empty without being nil. -/
theorem Handle_updates_on_nil_mounts :
    nilMountsFetched.Spec.Template.Spec.Containers = some [nilMountsContainer] ∧
    (containerForRouter (setRouterDefaults noSecretRouter).1
        (configForRouter (setRouterDefaults noSecretRouter).1)).Env = nilMountsContainer.Env ∧
    (containerForRouter (setRouterDefaults noSecretRouter).1
        (configForRouter (setRouterDefaults noSecretRouter).1)).Ports =
      nilMountsContainer.Ports ∧
    (containerForRouter (setRouterDefaults noSecretRouter).1
        (configForRouter (setRouterDefaults noSecretRouter).1)).VolumeMounts = some [] ∧
    nilMountsContainer.VolumeMounts = none ∧
    (containerForRouter (setRouterDefaults noSecretRouter).1
        (configForRouter (setRouterDefaults noSecretRouter).1)).VolumeMounts.getD [] =
      nilMountsContainer.VolumeMounts.getD [] ∧
    noSecretRouter.Spec.Size = 0 ∧
    countDeploymentUpdates
        (Handle nilMountsSdk
          { Object := EventObject.router noSecretRouter, Deleted := false }).calls = 1 := by
  decide

/-- C11 as stated fails on a router whose stored status is the empty list of nodes, when no
instance is listed: the names and the stored nodes are both empty, so they differ in
neither membership nor order, yet the pass issues one router update call, because
`getPodNames` returns the nil slice. -/
theorem Handle_updates_on_empty_nodes :
    echoSdk.ListPods emptyNodesRouter.Namespace (labelsForRouter emptyNodesRouter.Name) =
      Except.ok [] ∧
    getPodNames [] = none ∧
    emptyNodesRouter.Status.Nodes = some [] ∧
    (getPodNames []).getD [] = emptyNodesRouter.Status.Nodes.getD [] ∧
    countRouterUpdates
        (Handle echoSdk
          { Object := EventObject.router emptyNodesRouter, Deleted := false }).calls = 1 :=
  ⟨rfl, by decide, by decide, by decide, by decide⟩

end Qdo
